import Mathlib

/-!
Shallow embedding of the TCP engine in src/net/tcp.hh (seastar user-space TCP).
Machine integers are modelled as Nat with explicit reduction mod 2^32 / 2^16
where the C++ code performs uint32_t / uint16_t arithmetic.  tcp_seq wrap-safe
comparisons are modelled through the signed 32-bit difference exactly as the
operators at src/net/tcp.hh lines 135-163 define them.  Time is Nat
milliseconds; one-shot timers are an armed flag plus a deadline.  Promises are
a small inductive state.  External collaborators that are not part of
src/net/tcp.hh (packet, semaphore, timer, checksummer, packet_merger) are
modelled at the level of the operations tcp.hh uses, as noted at each
definition.
-/

namespace TcpModel

/-! ### Sequence-number arithmetic (tcp_seq, tcp.hh lines 135-163) -/

def W32 : Nat := 4294967296

def W16 : Nat := 65536

def HALF32 : Nat := 2147483648

/-- Unsigned 32-bit distance from a to b: the Nat represented by the
uint32_t subtraction b - a. -/
def dist (a b : Nat) : Nat := (b + (W32 - a % W32)) % W32

/-- Reinterpret a uint32_t value as int32_t (two-complement). -/
def i32ofU32 (d : Nat) : Int := if d % W32 < HALF32 then (d % W32 : Int) else (d % W32 : Int) - (W32 : Int)

/-- operator-(tcp_seq, tcp_seq): int32_t of the raw uint32 subtraction. -/
def seqSub (a b : Nat) : Int := i32ofU32 (dist b a)

/-- operator+(tcp_seq, n): raw uint32 addition. -/
def seqAdd (a n : Nat) : Nat := (a + n) % W32

/-- operator-(tcp_seq, n) for a nonnegative n: raw uint32 subtraction. -/
def seqSubN (a n : Nat) : Nat := (a + (W32 - n % W32)) % W32

/-- Cast an int32_t back to uint32_t. -/
def u32ofI32 (i : Int) : Nat := ((i % (W32 : Int) + W32) % (W32 : Int)).toNat

/-- operator< on tcp_seq: signed difference is negative. -/
def seqLtb (a b : Nat) : Bool := decide (seqSub a b < 0)

/-- operator> on tcp_seq. -/
def seqGtb (a b : Nat) : Bool := seqLtb b a

/-- operator<= on tcp_seq: not greater. -/
def seqLeb (a b : Nat) : Bool := !(seqGtb a b)

/-- operator>= on tcp_seq: not less. -/
def seqGeb (a b : Nat) : Bool := !(seqLtb a b)

/-! ### TCP state encoding (enum class tcp_state, tcp.hh lines 55-67).
The states are one-bit values and in_state tests set membership through a
bitmask, exactly as the source does; the encoding is kept so that the
repeated-bit idiosyncrasies of the source survive the translation. -/

def CLOSED : Nat := 1
def LISTEN : Nat := 2
def SYN_SENT : Nat := 4
def SYN_RECEIVED : Nat := 8
def ESTABLISHED : Nat := 16
def FIN_WAIT_1 : Nat := 32
def FIN_WAIT_2 : Nat := 64
def CLOSE_WAIT : Nat := 128
def CLOSING : Nat := 256
def LAST_ACK : Nat := 512
def TIME_WAIT : Nat := 1024

/-! ### Wire and queue records -/

/-- tcp_hdr (tcp.hh lines 165-185), after ntoh: all fields host order. -/
structure TcpHdr where
  src_port : Nat
  dst_port : Nat
  seq : Nat
  ack : Nat
  data_offset : Nat
  f_fin : Bool
  f_syn : Bool
  f_rst : Bool
  f_psh : Bool
  f_ack : Bool
  f_urg : Bool
  window : Nat
  checksum : Nat
  urgent : Nat
deriving DecidableEq

/-- A built outbound packet: TCP header plus payload bytes; len is the total
wire length p.len() (header incl. options plus payload). -/
structure OutPkt where
  hdr : TcpHdr
  payload : List Nat
  len : Nat
deriving DecidableEq

/-- unacked_segment (tcp.hh lines 220-226); pkt is the stored packet p,
which includes the TCP header prepended by output_one. -/
structure Seg where
  pkt : OutPkt
  data_len : Nat
  data_remaining : Nat
  nr_transmits : Nat
  tx_time : Nat
deriving DecidableEq

/-- Promise state for the connect_done / signalling promises. -/
inductive PromiseSt where
  | pending : PromiseSt
  | settled : PromiseSt
  | failed_reset : PromiseSt
  | failed_connect : PromiseSt
  | failed_refused : PromiseSt
deriving DecidableEq

/-- struct send (tcp.hh lines 227-265).  user_queue_space is the semaphore
counter (credits available); unsent holds raw user payloads. -/
structure Snd where
  unacknowledged : Nat
  next : Nat
  window : Nat
  window_scale : Nat
  mss : Nat
  wl1 : Nat
  wl2 : Nat
  initial : Nat
  data : List Seg
  unsent : List (List Nat)
  unsent_len : Nat
  queued_len : Nat
  closed : Bool
  user_queue_space : Nat
  queue_space_broken : Bool
  rttvar : Nat
  srtt : Nat
  first_rto_sample : Bool
  syn_tx_time : Nat
  cwnd : Nat
  ssthresh : Nat
  dupacks : Nat
  syn_retransmit : Nat
  fin_retransmit : Nat
  limited_transfer : Nat
  partial_ack : Nat
  recover : Nat
  window_probe : Bool
  all_data_acked_armed : Bool
deriving DecidableEq

/-- struct receive (tcp.hh lines 266-276).  out_of_order models
packet_merger.map as an ascending assoc list keyed by start sequence. -/
structure Rcv where
  next : Nat
  window : Nat
  window_scale : Nat
  mss : Nat
  initial : Nat
  data : List (List Nat)
  out_of_order : List (Nat × List Nat)
  data_received_armed : Bool
deriving DecidableEq

/-- hw_features of the inet layer (external to tcp.hh); only the fields
tcp.hh reads. -/
structure Hw where
  mtu : Nat
  max_packet_len : Nat
  tx_tso : Bool
  tx_csum_l4_offload : Bool
  rx_csum_offload : Bool
deriving DecidableEq

/-- Negotiated-options state used by output_one when sizing the header
(tcp_option, tcp.hh lines 80-131; get_size is defined outside tcp.hh). -/
structure OptSt where
  ts_ok : Bool
deriving DecidableEq

/-- The TCB (class tcb, tcp.hh lines 199-489).  Timers are an armed flag
plus a deadline; in_tcbs models membership of the demultiplexer table
_tcbs; rst_replies records headers handed to respond_with_reset. -/
structure Tcb where
  state : Nat
  snd : Snd
  rcv : Rcv
  rto : Nat
  persist_time_out : Nat
  retransmit_armed : Bool
  retransmit_deadline : Nat
  persist_armed : Bool
  persist_deadline : Nat
  delayed_ack_armed : Bool
  nr_full_seg_received : Nat
  packetq : List OutPkt
  poll_active : Bool
  in_tcbs : Bool
  connect_done : PromiseSt
  local_ip : Nat
  foreign_ip : Nat
  local_port : Nat
  foreign_port : Nat
  opt : OptSt
  hw : Hw
  rst_replies : List TcpHdr
deriving DecidableEq

/-- in_state (tcp.hh line 477): bitmask membership test. -/
def inState (t : Tcb) (mask : Nat) : Bool := (t.state &&& mask) != 0

/-! ### Small TCB helpers (tcp.hh lines 318-484) -/

/-- flight_size (tcp.hh lines 393-397): uint32 sum of data_remaining. -/
def flight_size (data : List Seg) : Nat := (data.map Seg.data_remaining).sum % W32

/-- exit_fast_recovery (tcp.hh lines 480-484). -/
def exit_fast_recovery (t : Tcb) : Tcb :=
  { t with snd := { t.snd with dupacks := 0, limited_transfer := 0, partial_ack := 0 } }

/-- remove_from_tcbs (tcp.hh lines 318-321): erase this connection from
the demultiplexer table _tcbs. -/
def remove_from_tcbs (t : Tcb) : Tcb := { t with in_tcbs := false }

/-- stop_retransmit_timer (tcp.hh lines 351-353). -/
def stop_retransmit_timer (t : Tcb) : Tcb := { t with retransmit_armed := false }

/-- start_retransmit_timer (tcp.hh lines 343-350): rearm at now + rto. -/
def start_retransmit_timer (t : Tcb) (now : Nat) : Tcb :=
  { t with retransmit_armed := true, retransmit_deadline := now + t.rto }

/-- start_persist_timer (tcp.hh lines 354-361): rearm at now + persist_time_out. -/
def start_persist_timer (t : Tcb) (now : Nat) : Tcb :=
  { t with persist_armed := true, persist_deadline := now + t.persist_time_out }

/-- stop_persist_timer (tcp.hh lines 362-364). -/
def stop_persist_timer (t : Tcb) : Tcb := { t with persist_armed := false }

/-- clear_delayed_ack (tcp.hh lines 1581-1584): cancel the timer. -/
def clear_delayed_ack (t : Tcb) : Tcb := { t with delayed_ack_armed := false }

/-- output (tcp.hh lines 323-328): schedule this TCB on the poll ring,
idempotent through poll_active; the ring insertion itself happens in
tcp::poll_tcb after L2 resolution and is modelled at the tcp level. -/
def output (t : Tcb) : Tcb :=
  if t.poll_active then t else { t with poll_active := true }

/-- signal_data_received (tcp.hh lines 404-409). -/
def signal_data_received (t : Tcb) : Tcb :=
  if t.rcv.data_received_armed then
    { t with rcv := { t.rcv with data_received_armed := false } }
  else t

/-- signal_all_data_acked (tcp.hh lines 410-415). -/
def signal_all_data_acked (t : Tcb) : Tcb :=
  if t.snd.all_data_acked_armed && t.snd.unsent_len == 0 && t.snd.queued_len == 0 then
    { t with snd := { t.snd with all_data_acked_armed := false } }
  else t

/-- syn_needs_on (tcp.hh lines 464-466). -/
def syn_needs_on (t : Tcb) : Bool := inState t (SYN_SENT ||| SYN_RECEIVED)

/-- fin_needs_on (tcp.hh lines 467-470). -/
def fin_needs_on (t : Tcb) : Bool :=
  inState t (FIN_WAIT_1 ||| CLOSING ||| LAST_ACK) && t.snd.closed &&
    t.snd.unsent_len == 0 && t.snd.queued_len == 0

/-- ack_needs_on (tcp.hh lines 471-473). -/
def ack_needs_on (t : Tcb) : Bool := !(inState t (CLOSED ||| LISTEN ||| SYN_SENT))

/-- cleanup (tcp.hh lines 1760-1769): clear the four FIFOs, stop the
retransmit timer, cancel the delayed ACK, remove from the demux table.
Note the persist timer is not touched here. -/
def cleanup (t : Tcb) : Tcb :=
  let t := { t with snd := { t.snd with unsent := [], data := [] } }
  let t := { t with rcv := { t.rcv with out_of_order := [], data := [] } }
  let t := stop_retransmit_timer t
  let t := clear_delayed_ack t
  remove_from_tcbs t

/-- do_reset (tcp.hh lines 433-444): enter CLOSED, break the send-side
semaphore, cleanup, fail the pending receive/acked promises. -/
def do_reset (t : Tcb) : Tcb :=
  let t := { t with state := CLOSED }
  let t := { t with snd := { t.snd with queue_space_broken := true } }
  let t := cleanup t
  let t := if t.rcv.data_received_armed then
      { t with rcv := { t.rcv with data_received_armed := false } } else t
  if t.snd.all_data_acked_armed then
    { t with snd := { t.snd with all_data_acked_armed := false } } else t

/-- do_time_wait (tcp.hh lines 445-449): enter TIME_WAIT and clean up at
once (no 2 MSL timer). -/
def do_time_wait (t : Tcb) : Tcb :=
  let t := { t with state := TIME_WAIT }
  cleanup t

/-- do_closed (tcp.hh lines 450-453). -/
def do_closed (t : Tcb) : Tcb :=
  let t := { t with state := CLOSED }
  cleanup t

/-- do_local_fin_acked (tcp.hh lines 460-463): advance both UNA and NXT
over the FIN phantom byte. -/
def do_local_fin_acked (t : Tcb) : Tcb :=
  { t with snd := { t.snd with unacknowledged := seqAdd t.snd.unacknowledged 1,
                               next := seqAdd t.snd.next 1 } }

/-- can_send (tcp.hh lines 371-392).  Mutates limited_transfer when
dupacks is 1 or 2 (RFC 3042 accounting), hence returns the new Snd too. -/
def can_send (s : Snd) : Nat × Snd :=
  if s.window_probe then (1, s)
  else
    let x := min (u32ofI32 (seqSub (seqAdd s.unacknowledged s.window) s.next)) s.unsent_len
    let x := min s.cwnd x
    if s.dupacks == 1 || s.dupacks == 2 then
      let flight := flight_size s.data
      let mx := (s.cwnd + 2 * s.mss) % W32
      let x := if flight ≤ mx then min x (mx - flight) else 0
      (x, { s with limited_transfer := (s.limited_transfer + x) % W32 })
    else if s.dupacks ≥ 3 then
      (min s.mss x, s)
    else (x, s)

/-- can_send at TCB level. -/
def can_send_t (t : Tcb) : Nat × Tcb :=
  let r := can_send t.snd
  (r.1, { t with snd := r.2 })

/-- update_rto (tcp.hh lines 1721-1745), RFC 6298 with alpha 1/8 and
beta 1/4, granularity 1 ms, clamped into [1000, 60000] ms. -/
def update_rto (t : Tcb) (now tx_time : Nat) : Tcb :=
  let R := now - tx_time
  let t :=
    if t.snd.first_rto_sample then
      { t with snd := { t.snd with first_rto_sample := false, rttvar := R / 2, srtt := R } }
    else
      let delta := if t.snd.srtt > R then t.snd.srtt - R else R - t.snd.srtt
      { t with snd := { t.snd with rttvar := t.snd.rttvar * 3 / 4 + delta / 4,
                                   srtt := t.snd.srtt * 7 / 8 + R / 8 } }
  let rto := t.snd.srtt + max 1 (4 * t.snd.rttvar)
  let rto := max rto 1000
  let rto := min rto 60000
  { t with rto := rto }

/-- do_established (tcp.hh lines 428-432): enter ESTABLISHED, take an RTT
sample from the SYN transmit time, resolve connect_done. -/
def do_established (t : Tcb) (now : Nat) : Tcb :=
  let t := { t with state := ESTABLISHED }
  let t := update_rto t now t.snd.syn_tx_time
  { t with connect_done := PromiseSt.settled }

/-- update_cwnd (tcp.hh lines 1747-1758): slow start below ssthresh,
congestion avoidance above.  Nat division by zero returns 0 where the
C++ would divide by a zero cwnd. -/
def update_cwnd (t : Tcb) (acked_bytes : Nat) : Tcb :=
  let smss := t.snd.mss
  if t.snd.cwnd < t.snd.ssthresh then
    { t with snd := { t.snd with cwnd := (t.snd.cwnd + min acked_bytes smss) % W32 } }
  else
    { t with snd := { t.snd with cwnd := (t.snd.cwnd + max 1 (smss * smss / t.snd.cwnd)) % W32 } }

/-- queue_packet (tcp.hh lines 401-403): append to the TCB packet queue. -/
def queue_packet (t : Tcb) (p : OutPkt) : Tcb := { t with packetq := t.packetq ++ [p] }

/-- fast_retransmit (tcp.hh lines 1711-1719): re-queue the head of
SND.data unchanged, bumping nr_transmits, and schedule output. -/
def fast_retransmit (t : Tcb) : Tcb :=
  match t.snd.data with
  | [] => t
  | seg :: rest =>
    let t := { t with snd := { t.snd with data := { seg with nr_transmits := seg.nr_transmits + 1 } :: rest } }
    let t := queue_packet t seg.pkt
    output t

/-! ### data_segment_acked (tcp.hh lines 794-825) -/

/-- The while loop of data_segment_acked: pop head segments whose
data_remaining is fully covered by seg_ack, advancing SND.UNA, sampling
the RTO for first transmissions, updating cwnd, releasing send-queue
credit.  Returns the TCB after the popped-segment effects, the remaining
list, and the accumulated acked byte count. -/
def dsa_loop (now seg_ack : Nat) : List Seg → Tcb → Nat → Tcb × List Seg × Nat
  | [], t, total => (t, [], total)
  | seg :: rest, t, total =>
    if seqLeb (seqAdd t.snd.unacknowledged seg.data_remaining) seg_ack then
      let acked_bytes := seg.data_remaining
      let t := { t with snd := { t.snd with unacknowledged := seqAdd t.snd.unacknowledged acked_bytes } }
      let t := if seg.nr_transmits == 0 then update_rto t now seg.tx_time else t
      let t := update_cwnd t acked_bytes
      let t := { t with snd := { t.snd with user_queue_space := t.snd.user_queue_space + seg.data_len } }
      dsa_loop now seg_ack rest t (total + acked_bytes)
    else (t, seg :: rest, total)

/-- data_segment_acked (tcp.hh lines 794-825).  After the loop, a partial
ACK reduces the data_remaining of the new head without touching the
stored packet.  The source reads front() of the segment deque there; on
an empty deque that is undefined behaviour, modelled as none. -/
def data_segment_acked (t : Tcb) (seg_ack now : Nat) : Option (Tcb × Nat) :=
  let r := dsa_loop now seg_ack t.snd.data t 0
  let t := { r.1 with snd := { r.1.snd with data := r.2.1 } }
  let total := r.2.2
  if seqLtb t.snd.unacknowledged seg_ack then
    match t.snd.data with
    | [] => none
    | seg :: rest =>
      let acked_bytes := u32ofI32 (seqSub seg_ack t.snd.unacknowledged)
      let t := { t with snd := { t.snd with
        data := { seg with data_remaining := (seg.data_remaining + (W16 - acked_bytes % W16)) % W16 } :: rest,
        unacknowledged := seg_ack } }
      let t := update_cwnd t acked_bytes
      some (t, total + acked_bytes)
  else some (t, total)

/-- segment_acceptable (tcp.hh lines 827-846), RFC 793 acceptance table. -/
def segment_acceptable (r : Rcv) (seg_seq : Nat) (seg_len : Nat) : Bool :=
  if seg_len == 0 && r.window == 0 then
    seg_seq == r.next
  else if seg_len == 0 && r.window > 0 then
    seqLeb r.next seg_seq && seqLtb seg_seq (seqAdd r.next r.window)
  else if seg_len > 0 && r.window > 0 then
    let x := seqLeb r.next seg_seq && seqLtb seg_seq (seqAdd r.next r.window)
    let y := seqLeb r.next (seqSubN (seqAdd seg_seq seg_len) 1) &&
             seqLtb (seqSubN (seqAdd seg_seq seg_len) 1) (seqAdd r.next r.window)
    x || y
  else false

/-! ### Out-of-order reassembly (tcp.hh lines 1586-1626) -/

/-- The body of the merge_out_of_order map walk, recursing over the
ascending assoc list; returns updated rcv.next, appended rcv.data, the
remaining map and whether anything was merged. -/
def moo_loop : Nat → List (List Nat) → List (Nat × List Nat) → Bool →
    Nat × List (List Nat) × List (Nat × List Nat) × Bool
  | rnext, rdata, [], merged => (rnext, rdata, [], merged)
  | rnext, rdata, (seg_beg, p) :: rest, merged =>
    let seg_len := p.length
    let seg_end := seqAdd seg_beg seg_len
    if seqLeb seg_beg rnext && seqLtb rnext seg_end then
      let trim := u32ofI32 (seqSub rnext seg_beg)
      let p2 := p.drop trim
      moo_loop (seqAdd rnext p2.length) (rdata ++ [p2]) rest true
    else if seqGeb rnext seg_end then
      moo_loop rnext rdata rest merged
    else (rnext, rdata, (seg_beg, p) :: rest, merged)

/-- merge_out_of_order (tcp.hh lines 1586-1621). -/
def merge_out_of_order (t : Tcb) : Bool × Tcb :=
  if t.rcv.out_of_order.isEmpty then (false, t)
  else
    let r := moo_loop t.rcv.next t.rcv.data t.rcv.out_of_order false
    (r.2.2.2, { t with rcv := { t.rcv with next := r.1, data := r.2.1, out_of_order := r.2.2.1 } })

/-- Modelled from the spec: packet_merger.merge (packet-util.hh, external
to src) inserts a fragment into the sequence-keyed map, merging
overlapping and adjacent fragments; here a sorted insert that coalesces a
fragment with any neighbour it touches. -/
def merger_insert : Nat → List Nat → List (Nat × List Nat) → List (Nat × List Nat)
  | seq, p, [] => [(seq, p)]
  | seq, p, (b, q) :: rest =>
    if seqLeb (seqAdd seq p.length) b then
      if seqAdd seq p.length == b then (seq, p ++ q) :: rest
      else (seq, p) :: (b, q) :: rest
    else if seqLeb (seqAdd b q.length) seq then
      if seqAdd b q.length == seq then merger_insert b (q ++ p) rest
      else (b, q) :: merger_insert seq p rest
    else
      -- overlapping ranges: keep the union, trimming the overlap
      if seqLeb b seq then
        merger_insert b (q ++ p.drop (u32ofI32 (seqSub (seqAdd b q.length) seq))) rest
      else
        merger_insert seq (p ++ q.drop (u32ofI32 (seqSub (seqAdd seq p.length) b))) rest

/-- insert_out_of_order (tcp.hh lines 1623-1626). -/
def insert_out_of_order (t : Tcb) (seg : Nat) (p : List Nat) : Tcb :=
  { t with rcv := { t.rcv with out_of_order := merger_insert seg p t.rcv.out_of_order } }

/-- should_send_ack (tcp.hh lines 1551-1579): delayed-ACK policy. -/
def should_send_ack (t : Tcb) (seg_len : Nat) : Bool × Tcb :=
  if seg_len > t.rcv.mss then
    (true, { t with nr_full_seg_received := 0, delayed_ack_armed := false })
  else
    let t2 := if seg_len == t.rcv.mss then { t with nr_full_seg_received := t.nr_full_seg_received + 1 } else t
    if seg_len == t.rcv.mss && t.nr_full_seg_received ≥ 1 then
      (true, { t2 with nr_full_seg_received := 0, delayed_ack_armed := false })
    else if t2.delayed_ack_armed then (false, t2)
    else (false, { t2 with delayed_ack_armed := true })

/-! ### Output path (tcp.hh lines 1336-1455, 1791-1812) -/

/-- Modelled from the spec: tcp_option::get_size (defined outside
src/net/tcp.hh) returns the 4-byte-aligned option block size: on SYN the
MSS, window-scale and SACK-permitted options, plus timestamps when
negotiated. -/
def opt_get_size (o : OptSt) (syn_on ack_on : Bool) : Nat :=
  if syn_on && ack_on then 12
  else if syn_on then 12
  else if o.ts_ok then 12
  else 0

/-- Modelled from the spec: the TCP checksum over the IP pseudo-header and
the segment (ip_checksum.hh is external to src); a simple 16-bit folded sum
standing in for the ones-complement sum. -/
def model_csum (local_ip foreign_ip len : Nat) (payload : List Nat) : Nat :=
  (local_ip + foreign_ip + len + payload.sum) % W16

/-- The merge loop of get_transmit_packet (tcp.hh lines 1369-1374):
coalesce successive whole packets while they fit the budget. -/
def gtp_merge (p : List Nat) (budget : Nat) : List (List Nat) → List Nat × Nat × List (List Nat)
  | [] => (p, budget, [])
  | q :: rest =>
    if q.length ≤ budget then gtp_merge (p ++ q) (budget - q.length) rest
    else (p, budget, q :: rest)

/-- get_transmit_packet (tcp.hh lines 1336-1382): build one payload from
the head of unsent within min(can_send, effective mss) bytes. -/
def get_transmit_packet (t : Tcb) : List Nat × Tcb :=
  match t.snd.unsent with
  | [] => ([], t)
  | p0 :: rest0 =>
    let cs0 := can_send_t t
    let t := cs0.2
    let len := if t.hw.tx_tso then t.hw.max_packet_len - 20 - 20
               else min ((t.hw.mtu - 20 - 20) % W16) t.snd.mss
    let cs := min cs0.1 len
    if rest0.isEmpty && p0.length ≤ cs then
      (p0, { t with snd := { t.snd with unsent := rest0, unsent_len := t.snd.unsent_len - p0.length } })
    else if p0.length > cs then
      let p := p0.take cs
      ( p, { t with snd := { t.snd with unsent := p0.drop cs :: rest0,
                                        unsent_len := t.snd.unsent_len - p.length } })
    else
      let m := gtp_merge p0 (cs - p0.length) rest0
      let p := m.1
      let budget := m.2.1
      match m.2.2 with
      | [] => (p, { t with snd := { t.snd with unsent := [],
                                               unsent_len := t.snd.unsent_len - p.length } })
      | q :: qrest =>
        if budget > 0 then
          let p2 := p ++ q.take budget
          ( p2, { t with snd := { t.snd with unsent := q.drop budget :: qrest,
                                             unsent_len := t.snd.unsent_len - p2.length } })
        else
          (p, { t with snd := { t.snd with unsent := q :: qrest,
                                           unsent_len := t.snd.unsent_len - p.length } })

/-- output_one (tcp.hh lines 1384-1455): build one outbound segment,
advance SND.NXT by the payload length, record the unacked segment, arm the
retransmit timer, and queue the packet. -/
def output_one (t : Tcb) (now : Nat) : Tcb :=
  if inState t CLOSED then t
  else
    let g := get_transmit_packet t
    let p := g.1
    let t := g.2
    let len := p.length % W16
    let syn_on := syn_needs_on t
    let ack_on := ack_needs_on t
    let options_size := opt_get_size t.opt syn_on ack_on
    let t := if ack_on then clear_delayed_ack t else t
    let hseq := if syn_on then t.snd.initial else t.snd.next
    let t := { t with snd := { t.snd with next := seqAdd t.snd.next len } }
    let fin_on := fin_needs_on t
    let hdr : TcpHdr :=
      { src_port := t.local_port, dst_port := t.foreign_port,
        seq := hseq, ack := t.rcv.next,
        data_offset := (20 + options_size) / 4,
        f_fin := fin_on, f_syn := syn_on, f_rst := false, f_psh := false,
        f_ack := ack_on, f_urg := false,
        window := (t.rcv.window >>> t.rcv.window_scale) % W16,
        checksum := model_csum t.local_ip t.foreign_ip (20 + options_size + p.length) p,
        urgent := 0 }
    let pkt : OutPkt := { hdr := hdr, payload := p, len := 20 + options_size + p.length }
    let t :=
      if len > 0 || syn_on || fin_on then
        let t := if len > 0 then
            { t with snd := { t.snd with data := t.snd.data ++
                [{ pkt := pkt, data_len := len, data_remaining := len, nr_transmits := 0, tx_time := now }] } }
          else t
        if !t.retransmit_armed then start_retransmit_timer t now else t
      else t
    queue_packet t pkt

/-- get_packet (tcp.hh lines 1791-1812): refill from output_one when the
queue is empty, hand back nothing once CLOSED, pop one packet, and
re-schedule when more can be sent.  The empty-queue case after output_one
corresponds to the assert in the source and cannot occur outside CLOSED. -/
def get_packet (t : Tcb) (now : Nat) : Option OutPkt × Tcb :=
  let t := { t with poll_active := false }
  let t := if t.packetq.isEmpty then output_one t now else t
  if inState t CLOSED then (none, t)
  else
    match t.packetq with
    | [] => (none, t)
    | p :: rest =>
      let t := { t with packetq := rest }
      let t :=
        if !rest.isEmpty then output t
        else if t.snd.dupacks < 3 then
          let cs := can_send t.snd
          let t := { t with snd := cs.2 }
          if cs.1 > 0 then output t else t
        else t
      (some p, t)

/-! ### Timer callbacks (tcp.hh lines 1634-1709) -/

/-- persist (tcp.hh lines 1634-1645): send a 1-byte window probe, then
double the persist timeout with the 60 s cap and rearm. -/
def persist (t : Tcb) (now : Nat) : Tcb :=
  let t := { t with snd := { t.snd with window_probe := true } }
  let t := output_one t now
  let t := { t with snd := { t.snd with window_probe := false } }
  let t := output t
  let t := { t with persist_time_out := min (t.persist_time_out * 2) 60000 }
  start_persist_timer t now

/-- The output_update_rto closure of retransmit (tcp.hh lines 1649-1654):
schedule output, double the RTO with its 60 s cap, rearm the timer. -/
def rtx_out_upd (t : Tcb) (now : Nat) : Tcb :=
  let t := output t
  let t := { t with rto := min (t.rto * 2) 60000 }
  start_retransmit_timer t now

/-- The data part of retransmit (tcp.hh lines 1677-1708): nothing to do
when SND.data is empty; otherwise apply the RFC 5681/6582 congestion
response and re-queue the oldest stored segment unchanged, or clean up
once the 5-transmit bound is reached. -/
def retransmit_data (t : Tcb) (now : Nat) : Tcb :=
  match t.snd.data with
  | [] => t
  | seg :: rest =>
    let smss := t.snd.mss
    let t := if seg.nr_transmits == 0 then
        { t with snd := { t.snd with ssthresh := max (flight_size t.snd.data / 2) (2 * smss) } }
      else t
    let t := { t with snd := { t.snd with recover := seqSubN t.snd.next 1, cwnd := smss } }
    let t := exit_fast_recovery t
    if seg.nr_transmits < 5 then
      let t := { t with snd := { t.snd with data := { seg with nr_transmits := seg.nr_transmits + 1 } :: rest } }
      let t := queue_packet t seg.pkt
      rtx_out_upd t now
    else cleanup t

/-- The FIN part of retransmit (tcp.hh lines 1667-1675) followed by the
data part. -/
def retransmit_fin (t : Tcb) (now : Nat) : Tcb :=
  if fin_needs_on t then
    if t.snd.fin_retransmit < 5 then
      let t := { t with snd := { t.snd with fin_retransmit := t.snd.fin_retransmit + 1 } }
      let t := rtx_out_upd t now
      retransmit_data t now
    else
      let t := { t with snd := { t.snd with fin_retransmit := t.snd.fin_retransmit + 1 } }
      cleanup t
  else retransmit_data t now

/-- retransmit (tcp.hh lines 1647-1709): bounded SYN retries (resolving
connect_done with tcp_connect_error and cleaning up on exhaustion), then
the FIN and data parts. -/
def retransmit (t : Tcb) (now : Nat) : Tcb :=
  if syn_needs_on t then
    if t.snd.syn_retransmit < 5 then
      let t := { t with snd := { t.snd with syn_retransmit := t.snd.syn_retransmit + 1 } }
      let t := rtx_out_upd t now
      retransmit_fin t now
    else
      let t := { t with snd := { t.snd with syn_retransmit := t.snd.syn_retransmit + 1 } }
      let t := { t with connect_done := PromiseSt.failed_connect }
      cleanup t
  else retransmit_fin t now

/-! ### Demultiplexer level: RST generation and the packet-provider hook
(tcp.hh lines 571-596, 719-727, 755-792) -/

/-- The all-zero header produced by packet::prepend_header value
initialisation before respond_with_reset fills its fields. -/
def zero_hdr : TcpHdr :=
  { src_port := 0, dst_port := 0, seq := 0, ack := 0, data_offset := 0,
    f_fin := false, f_syn := false, f_rst := false, f_psh := false,
    f_ack := false, f_urg := false, window := 0, checksum := 0, urgent := 0 }

/-- tcp::respond_with_reset (tcp.hh lines 755-792): the reset header built
for a non-RST inbound segment, none for an inbound RST.  The checksum and
offload bookkeeping do not affect the header fields the claims concern;
the built packet is handed to send_packet_without_tcb. -/
def respond_with_reset (rth : TcpHdr) : Option TcpHdr :=
  if rth.f_rst then none
  else
    let th := { zero_hdr with src_port := rth.dst_port, dst_port := rth.src_port }
    let th := if rth.f_ack then { th with seq := rth.ack } else th
    let th := if rth.f_syn then { th with ack := seqAdd rth.seq 1, f_ack := true } else th
    let th := { th with f_rst := true, data_offset := 20 / 4 }
    some { th with checksum := model_csum 0 0 20 [] }

/-- An l4packet handed to the L3 layer: destination ip, packet, resolved
ethernet destination. -/
structure L4Pkt where
  ip : Nat
  pkt : OutPkt
  e_dst : Option Nat
deriving DecidableEq

/-- Per-shard demultiplexer state: the fields of class tcp that the
stray-packet path and the packet-provider hook use (tcp.hh lines 490-499,
571-596), with the shared TCB pointers of the poll ring modelled as ids
into an assoc list.  tcb_polled is the counter captured by the provider
lambda; pending_polls records poll_tcb registrations awaiting L2
resolution. -/
structure TcpSt where
  tcb_polled : Nat
  packetq : List L4Pkt
  queue_space : Nat
  poll_tcbs : List (Nat × Nat)
  tcbs : List (Nat × Tcb)
  pending_polls : List Nat
deriving DecidableEq

/-- A TCB with every field zeroed, standing for the target of a shared
pointer that the model fails to find (cannot happen for states built by
the model itself). -/
def tcb0 : Tcb :=
  { state := CLOSED,
    snd := { unacknowledged := 0, next := 0, window := 0, window_scale := 0,
             mss := 0, wl1 := 0, wl2 := 0, initial := 0, data := [], unsent := [],
             unsent_len := 0, queued_len := 0, closed := false,
             user_queue_space := 212992, queue_space_broken := false,
             rttvar := 0, srtt := 0, first_rto_sample := true, syn_tx_time := 0,
             cwnd := 0, ssthresh := 0, dupacks := 0, syn_retransmit := 0,
             fin_retransmit := 0, limited_transfer := 0, partial_ack := 0,
             recover := 0, window_probe := false, all_data_acked_armed := false },
    rcv := { next := 0, window := 0, window_scale := 0, mss := 0, initial := 0,
             data := [], out_of_order := [], data_received_armed := false },
    rto := 1000, persist_time_out := 1000,
    retransmit_armed := false, retransmit_deadline := 0,
    persist_armed := false, persist_deadline := 0,
    delayed_ack_armed := false, nr_full_seg_received := 0,
    packetq := [], poll_active := false, in_tcbs := true,
    connect_done := PromiseSt.pending,
    local_ip := 0, foreign_ip := 0, local_port := 0, foreign_port := 0,
    opt := { ts_ok := false },
    hw := { mtu := 1500, max_packet_len := 65535, tx_tso := false,
            tx_csum_l4_offload := false, rx_csum_offload := false },
    rst_replies := [] }

/-- Dereference a poll-ring TCB pointer. -/
def tcbs_get (l : List (Nat × Tcb)) (i : Nat) : Tcb :=
  (((l.find? (fun x => x.1 == i)).map Prod.snd).getD tcb0)

/-- Write back through a poll-ring TCB pointer. -/
def tcbs_set (l : List (Nat × Tcb)) (i : Nat) (t : Tcb) : List (Nat × Tcb) :=
  l.map (fun x => if x.1 == i then (i, t) else x)

/-- send_packet_without_tcb (tcp.hh lines 719-727): enqueue on the stray
queue when the 208 KiB credit admits the packet, drop otherwise; the L2
destination is attached after resolution. -/
def send_packet_without_tcb (s : TcpSt) (dst_ip : Nat) (p : OutPkt) (e_dst : Nat) : TcpSt :=
  if p.len ≤ s.queue_space then
    { s with queue_space := s.queue_space - p.len,
             packetq := s.packetq ++ [{ ip := dst_ip, pkt := p, e_dst := some e_dst }] }
  else s

/-- The while (c--) loop of the provider lambda (tcp.hh lines 581-592):
pop scheduled TCBs, counting each poll, until one yields a packet; a TCB
whose output() ran during get_packet re-registers through poll_tcb
(pending L2 resolution). -/
def poll_loop (now : Nat) : List (Nat × Nat) → TcpSt → Option L4Pkt × TcpSt
  | [], s => (none, { s with poll_tcbs := [] })
  | (i, dst) :: rest, s =>
    let s := { s with tcb_polled := s.tcb_polled + 1, poll_tcbs := rest }
    let t := tcbs_get s.tcbs i
    let g := get_packet t now
    let t2 := g.2
    let s := { s with tcbs := tcbs_set s.tcbs i t2 }
    let s := if t2.poll_active then { s with pending_polls := s.pending_polls ++ [i] } else s
    match g.1 with
    | some p => (some { ip := t2.foreign_ip, pkt := p, e_dst := some dst }, s)
    | none => poll_loop now rest s

/-- One invocation of the lambda registered by register_packet_provider
(tcp.hh lines 572-596): drain a stray packet (returning its byte credit)
when the stray queue is non-empty and either the TCB-poll counter is
divisible by 128 or no TCB is scheduled; otherwise poll scheduled TCBs. -/
def provider_step (s : TcpSt) (now : Nat) : Option L4Pkt × TcpSt :=
  let c := s.poll_tcbs.length
  match s.packetq with
  | p :: rest =>
    if s.tcb_polled % 128 == 0 || c == 0 then
      (some p, { s with packetq := rest, queue_space := s.queue_space + p.pkt.len })
    else poll_loop now s.poll_tcbs s
  | [] => poll_loop now s.poll_tcbs s

/-! ### input_handle_other_state (tcp.hh lines 982-1333), in the order of
the RFC 793 processing steps the source follows. -/

/-- tcb::respond_with_reset (tcp.hh lines 750-753): forward the offending
header to the demux-level RST path; recorded as an event on the TCB. -/
def respond_with_reset_t (t : Tcb) (th : TcpHdr) : Tcb :=
  { t with rst_replies := t.rst_replies ++ [th] }

/-- The continuation state threaded through the handler sections: the TCB
and the (possibly trimmed) seg_seq, seg_len and payload. -/
abbrev IhosCont := Tcb × Nat × Nat × List Nat

/-- Steps 4.1 of the handler (tcp.hh lines 991-1013): sequence acceptance,
trimming of the already-acknowledged prefix, out-of-order insertion. -/
def ihos_pre (t : Tcb) (th : TcpHdr) (p0 : List Nat) : Sum Tcb IhosCont :=
  let seg_seq := th.seq
  let seg_len := p0.length
  if !(segment_acceptable t.rcv seg_seq seg_len) then .inl (output t)
  else
    let tr :=
      if seqLtb seg_seq t.rcv.next then
        let dup := min (u32ofI32 (seqSub t.rcv.next seg_seq)) seg_len
        (seqAdd seg_seq dup, seg_len - dup, p0.drop dup)
      else (seg_seq, seg_len, p0)
    let seg_seq := tr.1
    let seg_len := tr.2.1
    let p := tr.2.2
    if seg_seq != t.rcv.next then
      .inl (output (insert_out_of_order t seg_seq p))
    else .inr (t, seg_seq, seg_len, p)

/-- Step 4.2 (tcp.hh lines 1016-1043): the RST bit. -/
def ihos_rst (th : TcpHdr) (c : IhosCont) : Sum Tcb IhosCont :=
  let t := c.1
  if th.f_rst then
    if inState t SYN_RECEIVED then
      .inl (do_reset { t with connect_done := PromiseSt.failed_refused })
    else if inState t (ESTABLISHED ||| FIN_WAIT_1 ||| FIN_WAIT_2 ||| CLOSE_WAIT) then
      .inl (do_reset t)
    else if inState t (CLOSING ||| LAST_ACK ||| TIME_WAIT) then
      .inl (do_closed t)
    else .inr c
  else .inr c

/-- Step 4.4 (tcp.hh lines 1049-1064): a SYN in the window is an error. -/
def ihos_syn (th : TcpHdr) (c : IhosCont) : Sum Tcb IhosCont :=
  if th.f_syn then
    .inl (do_reset (respond_with_reset_t c.1 th))
  else .inr c

/-- The update_window lambda (tcp.hh lines 1083-1095). -/
def upd_window (t : Tcb) (th : TcpHdr) (seg_seq seg_ack now : Nat) : Tcb :=
  let t := { t with snd := { t.snd with window := (th.window <<< t.snd.window_scale) % W32,
                                        wl1 := seg_seq, wl2 := seg_ack } }
  if t.snd.window == 0 then
    start_persist_timer { t with persist_time_out := t.rto } now
  else stop_persist_timer t

/-- The set_retransmit_timer lambda (tcp.hh lines 1112-1122). -/
def set_rtx_timer (t : Tcb) (now : Nat) : Tcb :=
  if t.snd.data.isEmpty then
    signal_all_data_acked (stop_retransmit_timer t)
  else start_retransmit_timer t now

/-- The ESTABLISHED / CLOSE_WAIT ACK processing (tcp.hh lines 1098-1208):
new-data ACKs through data_segment_acked with NewReno full/partial ACK
handling, duplicate-ACK counting per RFC 5681, ACKs of unsent data, and
zero-window reopening.  The Bool is the do_output_data flag. -/
def ihos_ack_estcw (t : Tcb) (th : TcpHdr) (seg_seq seg_len now : Nat) :
    Sum (Option Tcb) (Tcb × Bool) :=
  let seg_ack := th.ack
  if !(inState t (ESTABLISHED ||| CLOSE_WAIT)) then .inr (t, false)
  else if seqLtb t.snd.unacknowledged seg_ack && seqLeb seg_ack t.snd.next then
    match data_segment_acked t seg_ack now with
    | none => .inl none
    | some (t, acked_bytes) =>
      let t := if seqLtb t.snd.wl1 seg_seq || (t.snd.wl1 == seg_seq && seqLeb t.snd.wl2 seg_ack)
               then upd_window t th seg_seq seg_ack now else t
      if t.snd.dupacks ≥ 3 then
        let smss := t.snd.mss
        if seqGtb seg_ack t.snd.recover then
          let t := { t with snd := { t.snd with
            cwnd := min t.snd.ssthresh ((max (flight_size t.snd.data) smss + smss) % W32) } }
          let t := exit_fast_recovery t
          .inr (set_rtx_timer t now, true)
        else
          let t := fast_retransmit t
          let t := { t with snd := { t.snd with cwnd := (t.snd.cwnd + (W32 - acked_bytes % W32)) % W32 } }
          let t := if acked_bytes ≥ smss then
              { t with snd := { t.snd with cwnd := (t.snd.cwnd + smss) % W32 } } else t
          let t := { t with snd := { t.snd with partial_ack := t.snd.partial_ack + 1 } }
          let t := if t.snd.partial_ack == 1 then start_retransmit_timer t now else t
          .inr (t, true)
      else
        .inr (set_rtx_timer (exit_fast_recovery t) now, true)
  else if !t.snd.data.isEmpty && seg_len == 0 && !th.f_fin && !th.f_syn &&
          th.ack == t.snd.unacknowledged &&
          (th.window <<< t.snd.window_scale) % W32 == t.snd.window then
    let t := { t with snd := { t.snd with dupacks := (t.snd.dupacks + 1) % W16 } }
    let smss := t.snd.mss
    if t.snd.dupacks == 1 || t.snd.dupacks == 2 then .inr (t, true)
    else if t.snd.dupacks == 3 then
      let t := if seqGtb (seqSubN seg_ack 1) t.snd.recover then
          let t := { t with snd := { t.snd with recover := seqSubN t.snd.next 1 } }
          let t := { t with snd := { t.snd with
            ssthresh := max ((flight_size t.snd.data + (W32 - t.snd.limited_transfer % W32)) % W32 / 2)
                            (2 * smss) } }
          fast_retransmit t
        else t
      .inr ({ t with snd := { t.snd with cwnd := (t.snd.ssthresh + 3 * smss) % W32 } }, false)
    else if t.snd.dupacks > 3 then
      .inr ({ t with snd := { t.snd with cwnd := (t.snd.cwnd + smss) % W32 } }, true)
    else .inr (t, false)
  else if seqGtb seg_ack t.snd.next then
    .inl (some (output t))
  else if t.snd.window == 0 && th.window > 0 then
    .inr (upd_window t th seg_seq seg_ack now, true)
  else .inr (t, false)

/-- The FIN_WAIT_1 / CLOSING / LAST_ACK ACK processing
(tcp.hh lines 1211-1252). -/
def ihos_ack_fin_states (t : Tcb) (th : TcpHdr) : Sum Tcb Tcb :=
  let seg_ack := th.ack
  let t := if inState t FIN_WAIT_1 then
      if seg_ack == seqAdd t.snd.next 1 then
        do_local_fin_acked { t with state := FIN_WAIT_2 }
      else t
    else t
  if inState t CLOSING then
    if seg_ack == seqAdd t.snd.next 1 then
      .inl (do_time_wait (do_local_fin_acked t))
    else .inl t
  else if inState t LAST_ACK then
    if seg_ack == seqAdd t.snd.next 1 then
      .inl (do_closed (do_local_fin_acked t))
    else .inr t
  else .inr t

/-- Step 4.5 (tcp.hh lines 1066-1253): drop when ACK is absent, the
SYN_RECEIVED acceptance test, then the per-state ACK processing. -/
def ihos_ack (th : TcpHdr) (now : Nat) (c : IhosCont) :
    Sum (Option Tcb) (IhosCont × Bool) :=
  let t := c.1
  let seg_seq := c.2.1
  let seg_len := c.2.2.1
  let p := c.2.2.2
  if !th.f_ack then .inl (some t)
  else
    let s1 : Sum Tcb Tcb :=
      if inState t SYN_RECEIVED then
        if seqLeb t.snd.unacknowledged th.ack && seqLeb th.ack t.snd.next then
          .inr (do_established t now)
        else .inl (respond_with_reset_t t th)
      else .inr t
    match s1 with
    | .inl r => .inl (some r)
    | .inr t =>
      match ihos_ack_estcw t th seg_seq seg_len now with
      | .inl r => .inl r
      | .inr (t, dod) =>
        match ihos_ack_fin_states t th with
        | .inl r => .inl (some r)
        | .inr t => .inr ((t, seg_seq, seg_len, p), dod)

/-- Step 4.7 (tcp.hh lines 1260-1288): the segment-text processing.  The
state mask is the mask of the source line 1261, which repeats FIN_WAIT_1.
The second Bool is the do_output flag. -/
def ihos_text (c : IhosCont) (dod : Bool) : Sum Tcb (IhosCont × Bool × Bool) :=
  let t := c.1
  let seg_seq := c.2.1
  let seg_len := c.2.2.1
  let p := c.2.2.2
  if inState t (ESTABLISHED ||| FIN_WAIT_1 ||| FIN_WAIT_1) then
    if p.length > 0 then
      let t := { t with rcv := { t.rcv with data := t.rcv.data ++ [p],
                                            next := seqAdd t.rcv.next seg_len } }
      let m := merge_out_of_order t
      let t := signal_data_received m.2
      if m.1 then .inr ((t, seg_seq, seg_len, p), dod, true)
      else
        let sa := should_send_ack t seg_len
        .inr ((sa.2, seg_seq, seg_len, p), dod, sa.1)
    else .inr (c, dod, false)
  else if inState t (CLOSE_WAIT ||| CLOSING ||| LAST_ACK ||| TIME_WAIT) then
    .inl t
  else .inr (c, dod, false)

/-- Steps 4.8 and the final output decision (tcp.hh lines 1291-1332). -/
def ihos_fin_final (th : TcpHdr) (c : IhosCont) (dod do_out : Bool) : Tcb :=
  let t := c.1
  let seg_seq := c.2.1
  let seg_len := c.2.2.1
  let step : Sum Tcb (Tcb × Bool) :=
    if th.f_fin then
      if inState t (CLOSED ||| LISTEN ||| SYN_SENT) then .inl t
      else
        let fin_seq := seqAdd seg_seq seg_len
        if fin_seq == t.rcv.next then
          let t := { t with rcv := { t.rcv with next := seqAdd fin_seq 1 } }
          let t := signal_data_received t
          let t := clear_delayed_ack t
          let t := output t
          let t := if inState t (SYN_RECEIVED ||| ESTABLISHED) then { t with state := CLOSE_WAIT } else t
          let t := if inState t FIN_WAIT_1 then { t with state := CLOSING } else t
          if inState t FIN_WAIT_2 then .inl (do_time_wait t)
          else .inr (t, false)
        else .inr (t, do_out)
    else .inr (t, do_out)
  match step with
  | .inl r => r
  | .inr (t, do_out) =>
    if do_out then output (clear_delayed_ack t)
    else if dod then
      let cs := can_send_t t
      if cs.1 > 0 then output (clear_delayed_ack cs.2) else cs.2
    else t

/-- input_handle_other_state (tcp.hh lines 982-1333).  The payload p0 is
the packet with the header already trimmed off (p.trim_front of line 984).
none models the undefined front() of data_segment_acked on an empty
segment queue. -/
def input_handle_other_state (t : Tcb) (th : TcpHdr) (p0 : List Nat) (now : Nat) : Option Tcb :=
  match ihos_pre t th p0 with
  | .inl r => some r
  | .inr c =>
    match ihos_rst th c with
    | .inl r => some r
    | .inr c =>
      match ihos_syn th c with
      | .inl r => some r
      | .inr c =>
        match ihos_ack th now c with
        | .inl r => r
        | .inr (c, dod) =>
          match ihos_text c dod with
          | .inl r => some r
          | .inr (c, dod, dout) => some (ihos_fin_final th c dod dout)

/-! ### Derived quantities and spec-side statements -/

/-- Total data_remaining bytes of a segment list. -/
def sumRem (l : List Seg) : Nat := (l.map Seg.data_remaining).sum

/-- Total data_len bytes of a segment list. -/
def sumLen (l : List Seg) : Nat := (l.map Seg.data_len).sum

/-- The RTO-estimator state: the fields update_rto reads and writes. -/
structure RtoSt where
  srtt : Nat
  rttvar : Nat
  first_rto_sample : Bool
  rto : Nat
deriving DecidableEq

/-- Project the RTO-estimator state out of a TCB. -/
def rto_of (t : Tcb) : RtoSt :=
  { srtt := t.snd.srtt, rttvar := t.snd.rttvar,
    first_rto_sample := t.snd.first_rto_sample, rto := t.rto }

/-- One update_rto step on the RTO-estimator state alone. -/
def rto_step (now : Nat) (r : RtoSt) (tx_time : Nat) : RtoSt :=
  let R := now - tx_time
  let r :=
    if r.first_rto_sample then
      { r with first_rto_sample := false, rttvar := R / 2, srtt := R }
    else
      let delta := if r.srtt > R then r.srtt - R else R - r.srtt
      { r with rttvar := r.rttvar * 3 / 4 + delta / 4, srtt := r.srtt * 7 / 8 + R / 8 }
  { r with rto := min (max (r.srtt + max 1 (4 * r.rttvar)) 1000) 60000 }

/-- The can_send return value as the specification words it: 1 under a
window probe, otherwise the minimum of the usable send window, the unsent
byte count and cwnd, limited-transfer capped for one or two duplicate
ACKs and capped to one MSS from three duplicate ACKs on. -/
def can_send_spec (s : Snd) : Nat :=
  if s.window_probe then 1
  else
    let base := min (min ((s.unacknowledged + s.window + (W32 - s.next % W32)) % W32) s.unsent_len) s.cwnd
    if s.dupacks == 1 || s.dupacks == 2 then
      let cap := (s.cwnd + 2 * s.mss) % W32
      if flight_size s.data > cap then 0 else min base (cap - flight_size s.data)
    else if s.dupacks ≥ 3 then min base s.mss
    else base

/-- The characterization of one dsa_loop run: some prefix of k segments is
popped, each fully covered by seg_ack, the head of the remainder (if any)
is not, SND.UNA advances by the popped byte count, the send-queue credit
grows by their data_len sum, and the RTO estimator folds over exactly the
popped first transmissions. -/
def DsaSpec (now seg_ack : Nat) (data : List Seg) (t : Tcb) (total : Nat) : Prop :=
  ∃ k, k ≤ data.length ∧
    sumRem (data.take k) ≤ dist t.snd.unacknowledged seg_ack ∧
    (∀ sg2 rest2, data.drop k = sg2 :: rest2 →
       dist t.snd.unacknowledged seg_ack < sumRem (data.take k) + sg2.data_remaining) ∧
    (dsa_loop now seg_ack data t total).2.1 = data.drop k ∧
    (dsa_loop now seg_ack data t total).2.2 = total + sumRem (data.take k) ∧
    (dsa_loop now seg_ack data t total).1.snd.unacknowledged
      = (t.snd.unacknowledged + sumRem (data.take k)) % W32 ∧
    (dsa_loop now seg_ack data t total).1.snd.user_queue_space
      = t.snd.user_queue_space + sumLen (data.take k) ∧
    (dsa_loop now seg_ack data t total).1.snd.data = t.snd.data ∧
    rto_of (dsa_loop now seg_ack data t total).1
      = ((data.take k).filter (fun sg => sg.nr_transmits == 0)).foldl
          (fun r sg => rto_step now r sg.tx_time) (rto_of t)

/-! ### Concrete instances for the claim-level evaluations -/

/-- A TCB in FIN_WAIT_2 expecting sequence 100 with an open window. -/
def t_c1 : Tcb :=
  { tcb0 with state := FIN_WAIT_2,
              rcv := { tcb0.rcv with next := 100, window := 1000 } }

/-- An acceptable in-order data segment for t_c1 carrying an ACK. -/
def th_c1 : TcpHdr := { zero_hdr with seq := 100, f_ack := true, window := 500 }

/-- A TCB with the persist timer armed, about to be torn down. -/
def t_c2 : Tcb :=
  { tcb0 with persist_armed := true, persist_deadline := 500,
              retransmit_armed := true, delayed_ack_armed := true,
              snd := { tcb0.snd with unsent := [[1]], unsent_len := 1 } }

/-- A window-probe send state with one pending duplicate ACK. -/
def s_c10 : Snd :=
  { tcb0.snd with window_probe := true, dupacks := 1, unsent_len := 50,
                  cwnd := 100, mss := 10, window := 100 }

/-- A stored unacked 500-byte segment, never retransmitted. -/
def seg_a : Seg :=
  { pkt := { hdr := zero_hdr, payload := [10, 11], len := 22 },
    data_len := 500, data_remaining := 500, nr_transmits := 0, tx_time := 1 }

/-- A stored unacked 300-byte segment, retransmitted once. -/
def seg_b : Seg :=
  { pkt := { hdr := zero_hdr, payload := [12], len := 21 },
    data_len := 300, data_remaining := 300, nr_transmits := 1, tx_time := 2 }

/-- An ESTABLISHED TCB with two stored segments spanning 1000..1800. -/
def t_c3 : Tcb :=
  { tcb0 with state := ESTABLISHED,
              snd := { tcb0.snd with unacknowledged := 1000, next := 1800,
                                     data := [seg_a, seg_b], user_queue_space := 7 } }

/-- An ESTABLISHED TCB with two duplicate ACKs already counted. -/
def t_c4 : Tcb :=
  { tcb0 with state := ESTABLISHED,
              snd := { tcb0.snd with unacknowledged := 500, next := 1500, window := 10000,
                                     mss := 100, data := [seg_a, seg_b], dupacks := 2,
                                     recover := 400, ssthresh := 77, limited_transfer := 100 },
              rcv := { tcb0.rcv with next := 100, window := 1000 } }

/-- The third duplicate ACK for t_c4: zero length, ACK at SND.UNA,
window unchanged. -/
def th_c4 : TcpHdr := { zero_hdr with seq := 100, ack := 500, f_ack := true, window := 10000 }

/-- A SYN_SENT TCB retrying its SYN. -/
def t_c6 : Tcb :=
  { tcb0 with state := SYN_SENT, snd := { tcb0.snd with syn_retransmit := 2 } }

/-- An ESTABLISHED TCB whose oldest segment is due for retransmission. -/
def t_c6d : Tcb :=
  { tcb0 with state := ESTABLISHED,
              snd := { tcb0.snd with unacknowledged := 1000, next := 1800, mss := 100,
                                     data := [seg_a, seg_b], dupacks := 5,
                                     limited_transfer := 3, partial_ack := 2 } }

/-- A SYN_SENT TCB whose SYN retransmissions are exhausted. -/
def t_c6b : Tcb := { t_c6 with snd := { t_c6.snd with syn_retransmit := 5 } }

/-- An ESTABLISHED TCB whose oldest segment has been transmitted 5 times. -/
def t_c6e : Tcb :=
  { t_c6d with snd := { t_c6d.snd with data := [{ seg_a with nr_transmits := 5 }, seg_b] } }

/-- An inbound SYN+ACK segment that must draw a reset. -/
def th_c9 : TcpHdr :=
  { zero_hdr with src_port := 1234, dst_port := 80, seq := 42, ack := 77,
                  f_syn := true, f_ack := true }

/-- An inbound RST segment, which must draw no response. -/
def th_c9r : TcpHdr := { th_c9 with f_rst := true }

/-- A stray packet sitting on the per-shard queue. -/
def pkt_c8 : L4Pkt := { ip := 9, pkt := { hdr := zero_hdr, payload := [], len := 20 }, e_dst := some 5 }

/-- An ESTABLISHED TCB with one queued packet, scheduled on the ring. -/
def t_c8 : Tcb :=
  { tcb0 with state := ESTABLISHED, foreign_ip := 9, poll_active := true,
              packetq := [{ hdr := zero_hdr, payload := [3], len := 21 }] }

/-- Provider state at the first invocation: fresh counter, one stray
packet queued and one TCB scheduled. -/
def s_c8 : TcpSt :=
  { tcb_polled := 0, packetq := [pkt_c8], queue_space := 0,
    poll_tcbs := [(0, 7)], tcbs := [(0, t_c8)], pending_polls := [] }

/-- Provider state mid-stream: counter not divisible by 128, one TCB
scheduled, stray packet waiting. -/
def s_c8b : TcpSt := { s_c8 with tcb_polled := 5 }

/-- A TCB holding one queued packet with one duplicate ACK counted, used
for the get_packet rescheduling check. -/
def t_c10 : Tcb :=
  { tcb0 with state := ESTABLISHED,
              packetq := [{ hdr := zero_hdr, payload := [3], len := 21 }],
              snd := { tcb0.snd with dupacks := 1, unsent_len := 50, cwnd := 100,
                                     mss := 10, window := 100, unacknowledged := 0, next := 0 } }

/-! ## Arithmetic lemmas about the wrap-safe comparisons -/

lemma dist_lt_w32 (a b : Nat) : dist a b < W32 := by
  unfold dist W32
  omega

lemma u32_i32 (d : Nat) : u32ofI32 (i32ofU32 d) = d % W32 := by
  unfold u32ofI32 i32ofU32 W32 HALF32
  split <;> omega

lemma u32_seqSub (a b : Nat) : u32ofI32 (seqSub a b) = dist b a := by
  unfold seqSub
  rw [u32_i32]
  exact Nat.mod_eq_of_lt (dist_lt_w32 b a)

lemma seqLeb_iff (a b : Nat) : seqLeb a b = true ↔ dist a b < HALF32 := by
  unfold seqLeb seqGtb seqLtb seqSub i32ofU32 dist W32 HALF32
  simp only [Bool.not_eq_true', decide_eq_false_iff_not, not_lt]
  split <;> rename_i h <;> constructor <;> intro h2 <;> omega

lemma seqLtb_iff (a b : Nat) : seqLtb a b = true ↔ 0 < dist a b ∧ dist a b ≤ HALF32 := by
  unfold seqLtb seqSub i32ofU32 dist W32 HALF32
  simp only [decide_eq_true_eq]
  split <;> rename_i h <;> constructor <;> intro h2 <;> omega

/-! ## Claim theorems -/

/-- C1.  The claim reads the segment-text branch as covering ESTABLISHED,
FIN_WAIT_1 and FIN_WAIT_2, the stated intent of the specification; the
mask at tcp.hh line 1261 however repeats FIN_WAIT_1 instead of naming
FIN_WAIT_2.  Evaluated at the failing input: a TCB in FIN_WAIT_2 and an
acceptable in-order three-byte segment; the payload is dropped, RCV.data
stays empty and RCV.NXT stays 100 instead of advancing to 103. -/
theorem c1_fin_wait_2_payload_ignored :
    t_c1.state = FIN_WAIT_2 ∧
    segment_acceptable t_c1.rcv th_c1.seq 3 = true ∧
    (input_handle_other_state t_c1 th_c1 [1, 2, 3] 7).map (fun t => t.rcv.data) = some [] ∧
    (input_handle_other_state t_c1 th_c1 [1, 2, 3] 7).map (fun t => t.rcv.next) = some 100 :=
  ⟨rfl, rfl, rfl, rfl⟩

/-- C2 counterexample.  cleanup does not cancel the persist timer: on a
TCB whose persist timer is armed, the timer is still armed after cleanup,
refuting the claim that all three timers are cancelled. -/
theorem c2_persist_timer_survives_cleanup :
    t_c2.persist_armed = true ∧ (cleanup t_c2).persist_armed = true :=
  ⟨rfl, rfl⟩

/-- C2 amended.  After cleanup all four FIFOs are empty, the retransmit
timer and the delayed ACK are cancelled and the TCB entry is removed from
the demultiplexer table; the persist timer is left exactly as it was. -/
theorem c2_cleanup_effects (t : Tcb) :
    (cleanup t).snd.unsent = [] ∧ (cleanup t).snd.data = [] ∧
    (cleanup t).rcv.data = [] ∧ (cleanup t).rcv.out_of_order = [] ∧
    (cleanup t).retransmit_armed = false ∧ (cleanup t).delayed_ack_armed = false ∧
    (cleanup t).in_tcbs = false ∧ (cleanup t).persist_armed = t.persist_armed :=
  ⟨rfl, rfl, rfl, rfl, rfl, rfl, rfl, rfl⟩

/-- C5.  can_send returns 1 under a window probe, and otherwise the
minimum of the usable send window SND.UNA + SND.window - SND.NXT (uint32),
the unsent byte count and cwnd, capped by the RFC 3042 limited-transfer
budget for one or two duplicate ACKs (zero once the flight exceeds
cwnd + 2 smss) and by a single smss from three duplicate ACKs on. -/
theorem c5_can_send_value (s : Snd) : (can_send s).1 = can_send_spec s := by
  unfold can_send can_send_spec
  have e : u32ofI32 (seqSub (seqAdd s.unacknowledged s.window) s.next)
      = (s.unacknowledged + s.window + (W32 - s.next % W32)) % W32 := by
    rw [u32_seqSub]
    unfold dist seqAdd W32
    omega
  simp only [e]
  split_ifs <;> simp_all <;> omega

/-- C9.  respond_with_reset never answers an inbound RST; otherwise the
reset carries the ports swapped, echoes the inbound ACK number as its
sequence when the inbound ACK flag is set, and acknowledges the inbound
ISN (SEQ + 1, with the ACK flag on) when the inbound SYN flag is set. -/
theorem c9_respond_with_reset (rth : TcpHdr) :
    (rth.f_rst = true → respond_with_reset rth = none) ∧
    (rth.f_rst = false → ∃ th, respond_with_reset rth = some th ∧
       th.src_port = rth.dst_port ∧ th.dst_port = rth.src_port ∧ th.f_rst = true ∧
       (rth.f_ack = true → th.seq = rth.ack) ∧
       (rth.f_syn = true → th.ack = seqAdd rth.seq 1 ∧ th.f_ack = true)) := by
  constructor
  · intro h
    unfold respond_with_reset
    simp [h]
  · intro h
    unfold respond_with_reset
    rw [h]
    refine ⟨_, rfl, ?_⟩
    by_cases ha : rth.f_ack <;> by_cases hs : rth.f_syn <;> simp [ha, hs]

/-- C9 witness: at a concrete SYN+ACK segment the reset swaps the ports,
takes SEQ from the inbound ACK and acknowledges SEQ + 1; at a concrete
RST segment there is no response. -/
theorem c9_respond_with_reset_witness :
    (respond_with_reset th_c9r = none) ∧
    (∃ th, respond_with_reset th_c9 = some th ∧
       th.src_port = th_c9.dst_port ∧ th.dst_port = th_c9.src_port ∧ th.f_rst = true ∧
       (th_c9.f_ack = true → th.seq = th_c9.ack) ∧
       (th_c9.f_syn = true → th.ack = seqAdd th_c9.seq 1 ∧ th.f_ack = true)) :=
  ⟨(c9_respond_with_reset th_c9r).1 rfl, (c9_respond_with_reset th_c9).2 rfl⟩

/-- C10 counterexample.  With window_probe set and dupacks = 1 the call
returns budget 1 but leaves limited_transfer untouched, refuting the
claim that whenever dupacks is 1 or 2 every call adds the returned
budget. -/
theorem c10_window_probe_no_accounting :
    s_c10.dupacks = 1 ∧ (can_send s_c10).1 = 1 ∧
    ¬ ((can_send s_c10).2.limited_transfer = s_c10.limited_transfer + (can_send s_c10).1) := by
  refine ⟨rfl, rfl, ?_⟩
  decide

/-- C10 amended.  Outside a window probe, whenever dupacks is 1 or 2 every
call to can_send adds the budget it returns to limited_transfer (uint32)
and changes nothing else; in every other case, window probes included,
can_send leaves the whole send state unchanged.  The same accounting runs
from the rescheduling check of get_packet when the popped packet empties
the queue. -/
theorem c10_can_send_frame (s : Snd) (t : Tcb) (now : Nat) (pk : OutPkt) :
    (s.window_probe = false → (s.dupacks = 1 ∨ s.dupacks = 2) →
       (can_send s).2 = { s with limited_transfer := (s.limited_transfer + (can_send s).1) % W32 }) ∧
    (s.window_probe = true ∨ (s.dupacks ≠ 1 ∧ s.dupacks ≠ 2) → (can_send s).2 = s) ∧
    (t.packetq = [pk] → inState t CLOSED = false → t.snd.window_probe = false →
     (t.snd.dupacks = 1 ∨ t.snd.dupacks = 2) →
       (get_packet t now).2.snd.limited_transfer
         = (t.snd.limited_transfer + (can_send t.snd).1) % W32) := by
  have key : ∀ s : Snd, s.window_probe = false → (s.dupacks = 1 ∨ s.dupacks = 2) →
      (can_send s).2 = { s with limited_transfer := (s.limited_transfer + (can_send s).1) % W32 } := by
    intro s hp hd
    unfold can_send
    rw [hp]
    rcases hd with hd | hd <;> simp [hd]
  refine ⟨key s, ?_, ?_⟩
  · intro h
    unfold can_send
    rcases h with hp | ⟨h1, h2⟩
    · simp [hp]
    · split_ifs <;> simp_all
  · intro hpq hcl hp hd
    have hd3 : t.snd.dupacks < 3 := by rcases hd with h | h <;> omega
    simp only [inState] at hcl
    unfold get_packet
    rw [hpq]
    simp [inState, hcl, hd3, output, key t.snd hp hd]
    split_ifs <;> rfl

/-- C10 witness: the frame property instantiated at a dupacks = 1 send
state and at a TCB popping its last queued packet. -/
theorem c10_can_send_frame_witness :
    ((can_send { s_c10 with window_probe := false }).2
       = { s_c10 with window_probe := false,
                      limited_transfer := ({ s_c10 with window_probe := false }.limited_transfer
                        + (can_send { s_c10 with window_probe := false }).1) % W32 }) ∧
    ((get_packet t_c10 5).2.snd.limited_transfer
       = (t_c10.snd.limited_transfer + (can_send t_c10.snd).1) % W32) :=
  ⟨(c10_can_send_frame { s_c10 with window_probe := false } t_c10 5
      { hdr := zero_hdr, payload := [3], len := 21 }).1 rfl (Or.inl rfl),
   (c10_can_send_frame { s_c10 with window_probe := false } t_c10 5
      { hdr := zero_hdr, payload := [3], len := 21 }).2.2 rfl rfl rfl (Or.inl rfl)⟩

/-- C8 counterexample.  The stray-versus-TCB alternation is keyed on the
tcb_polled counter (which counts TCB polls, not invocations, and starts
at 0) and on the stray queue being non-empty: on the very first
invocation, which is not a 128th call and has a TCB scheduled, the hook
drains the stray packet and leaves the ring untouched, instead of popping
the scheduled TCB as the claim states. -/
theorem c8_provider_first_call_drains_stray :
    s_c8.tcb_polled = 0 ∧ s_c8.poll_tcbs = [(0, 7)] ∧ s_c8.packetq = [pkt_c8] ∧
    (provider_step s_c8 3).1 = some pkt_c8 ∧
    (provider_step s_c8 3).2.poll_tcbs = [(0, 7)] ∧
    (provider_step s_c8 3).2.queue_space = s_c8.queue_space + pkt_c8.pkt.len :=
  ⟨rfl, rfl, rfl, rfl, rfl, rfl⟩

/-- C8 amended.  On each invocation of the provider hook: when the stray
queue is non-empty and either the TCB-poll counter is divisible by 128 or
no TCB is scheduled, one stray packet is drained and its byte credit
returned to _queue_space; otherwise the scheduled TCBs are popped in
order (each pop counts one TCB poll and invokes that TCB's get_packet)
until one yields a segment, which is returned with that TCB's cached L2
destination attached; an empty ring yields nothing. -/
theorem c8_provider_policy (s : TcpSt) (now : Nat) (p : L4Pkt) (rest : List L4Pkt)
    (i dst : Nat) (ring : List (Nat × Nat)) (pk : OutPkt) :
    (s.packetq = p :: rest → (s.tcb_polled % 128 = 0 ∨ s.poll_tcbs = []) →
       provider_step s now
         = (some p, { s with packetq := rest, queue_space := s.queue_space + p.pkt.len })) ∧
    (s.packetq = [] ∨ (s.tcb_polled % 128 ≠ 0 ∧ s.poll_tcbs ≠ []) →
       provider_step s now = poll_loop now s.poll_tcbs s) ∧
    (s.poll_tcbs = [] → provider_step s now = poll_loop now s.poll_tcbs s →
       (provider_step s now).1 = none) ∧
    (s.poll_tcbs = (i, dst) :: ring →
     (get_packet (tcbs_get s.tcbs i) now).1 = some pk →
       (poll_loop now s.poll_tcbs s).1
         = some { ip := (get_packet (tcbs_get s.tcbs i) now).2.foreign_ip,
                  pkt := pk, e_dst := some dst } ∧
       (poll_loop now s.poll_tcbs s).2.tcb_polled = s.tcb_polled + 1 ∧
       (poll_loop now s.poll_tcbs s).2.poll_tcbs = ring ∧
       (poll_loop now s.poll_tcbs s).2.tcbs
         = tcbs_set s.tcbs i (get_packet (tcbs_get s.tcbs i) now).2) ∧
    (s.poll_tcbs = (i, dst) :: ring →
     (get_packet (tcbs_get s.tcbs i) now).1 = none →
       poll_loop now s.poll_tcbs s
         = poll_loop now ring
             (let s1 := { s with tcb_polled := s.tcb_polled + 1, poll_tcbs := ring,
                                 tcbs := tcbs_set s.tcbs i (get_packet (tcbs_get s.tcbs i) now).2 }
              if (get_packet (tcbs_get s.tcbs i) now).2.poll_active then
                { s1 with pending_polls := s1.pending_polls ++ [i] }
              else s1)) := by
  refine ⟨?_, ?_, ?_, ?_, ?_⟩
  · intro hpq hc
    unfold provider_step
    rw [hpq]
    rcases hc with hc | hc
    · simp [hc]
    · simp [hc]
  · intro hc
    unfold provider_step
    rcases hc with hc | ⟨h1, h2⟩
    · rw [hc]
    · rcases hpq : s.packetq with _ | ⟨q, qrest⟩
      · rfl
      · have : (s.tcb_polled % 128 == 0 || s.poll_tcbs.length == 0) = false := by
          simp only [Bool.or_eq_false_iff, beq_eq_false_iff_ne, ne_eq]
          exact ⟨h1, fun h3 => h2 (List.eq_nil_of_length_eq_zero h3)⟩
        simp [this]
  · intro hr he
    rw [he, hr]
    unfold poll_loop
    rfl
  · intro hr hg
    rw [hr]
    unfold poll_loop
    simp only [hg]
    refine ⟨trivial, ?_, ?_, ?_⟩ <;> split_ifs <;> rfl
  · intro hr hg
    rw [hr]
    conv => lhs; unfold poll_loop
    simp only [hg]

/-- C8 witness: the stray branch at the first invocation, and the
TCB-poll branch at a mid-stream state whose head TCB yields its queued
packet. -/
theorem c8_provider_policy_witness :
    (provider_step s_c8 3
       = (some pkt_c8, { s_c8 with packetq := [], queue_space := s_c8.queue_space + pkt_c8.pkt.len })) ∧
    (provider_step s_c8b 3 = poll_loop 3 s_c8b.poll_tcbs s_c8b) ∧
    ((poll_loop 3 s_c8b.poll_tcbs s_c8b).1
       = some { ip := (get_packet (tcbs_get s_c8b.tcbs 0) 3).2.foreign_ip,
                pkt := { hdr := zero_hdr, payload := [3], len := 21 }, e_dst := some 7 }) :=
  ⟨(c8_provider_policy s_c8 3 pkt_c8 [] 0 7 [] { hdr := zero_hdr, payload := [3], len := 21 }).1
     rfl (Or.inl rfl),
   (c8_provider_policy s_c8b 3 pkt_c8 [] 0 7 [] { hdr := zero_hdr, payload := [3], len := 21 }).2.1
     (Or.inr ⟨by decide, by decide⟩),
   ((c8_provider_policy s_c8b 3 pkt_c8 [] 0 7 [] { hdr := zero_hdr, payload := [3], len := 21 }).2.2.2.1
     rfl rfl).1⟩

/-! ## RTO bounds (C7) -/

lemma output_rto (t : Tcb) : (output t).rto = t.rto := by
  unfold output
  split <;> rfl

lemma rtx_out_upd_rto (t : Tcb) (now : Nat) :
    (rtx_out_upd t now).rto = min (t.rto * 2) 60000 := by
  unfold rtx_out_upd start_retransmit_timer
  simp [output_rto]

lemma rtx_out_upd_rto_bounds (t : Tcb) (now : Nat) (h1 : 1000 ≤ t.rto) :
    1000 ≤ (rtx_out_upd t now).rto ∧ (rtx_out_upd t now).rto ≤ 60000 := by
  rw [rtx_out_upd_rto]
  omega

lemma retransmit_data_rto_bounds (t : Tcb) (now : Nat)
    (h1 : 1000 ≤ t.rto) (h2 : t.rto ≤ 60000) :
    1000 ≤ (retransmit_data t now).rto ∧ (retransmit_data t now).rto ≤ 60000 := by
  unfold retransmit_data
  split
  · exact ⟨h1, h2⟩
  · split_ifs <;> simp_all [rtx_out_upd_rto, queue_packet, cleanup, stop_retransmit_timer,
      clear_delayed_ack, remove_from_tcbs, exit_fast_recovery] <;> omega

lemma retransmit_fin_rto_bounds (t : Tcb) (now : Nat)
    (h1 : 1000 ≤ t.rto) (h2 : t.rto ≤ 60000) :
    1000 ≤ (retransmit_fin t now).rto ∧ (retransmit_fin t now).rto ≤ 60000 := by
  unfold retransmit_fin
  split_ifs with hf hn
  · have hx : ({ t with snd := { t.snd with fin_retransmit := t.snd.fin_retransmit + 1 } } : Tcb).rto = t.rto := rfl
    refine retransmit_data_rto_bounds _ now ?_ ?_ <;> rw [rtx_out_upd_rto, hx] <;> omega
  · simp [cleanup, stop_retransmit_timer, clear_delayed_ack, remove_from_tcbs]
    omega
  · exact retransmit_data_rto_bounds t now h1 h2

lemma gtp_pto (t : Tcb) : (get_transmit_packet t).2.persist_time_out = t.persist_time_out := by
  unfold get_transmit_packet
  split
  · rfl
  · dsimp only []
    split_ifs <;> first
      | rfl
      | (split <;> first
          | (split_ifs <;> rfl)
          | rfl)

lemma output_one_pto (t : Tcb) (now : Nat) :
    (output_one t now).persist_time_out = t.persist_time_out := by
  unfold output_one
  split
  · rfl
  · simp only [queue_packet]
    split_ifs <;> simp [start_retransmit_timer, clear_delayed_ack, gtp_pto]

/-- C7.  After update_rto the RTO equals srtt + max(1 ms, 4 rttvar)
clamped into [1 s, 60 s]; the retransmit back-off keeps the RTO inside
[1 s, 60 s]; the persist back-off never pushes the persist timeout above
60 s.  Hence the RTO always lies in [1 s, 60 s] (it starts at 1 s and is
only written by update_rto and the retransmit back-off). -/
theorem c7_rto_bounds (t : Tcb) (now tx_time : Nat) :
    ((update_rto t now tx_time).rto
       = min (max ((update_rto t now tx_time).snd.srtt
           + max 1 (4 * (update_rto t now tx_time).snd.rttvar)) 1000) 60000 ∧
     1000 ≤ (update_rto t now tx_time).rto ∧ (update_rto t now tx_time).rto ≤ 60000) ∧
    (1000 ≤ t.rto → t.rto ≤ 60000 →
       1000 ≤ (retransmit t now).rto ∧ (retransmit t now).rto ≤ 60000) ∧
    ((persist t now).persist_time_out ≤ 60000) := by
  refine ⟨?_, ?_, ?_⟩
  · unfold update_rto
    split <;> simp <;> omega
  · intro h1 h2
    unfold retransmit
    split_ifs with hs hn
    · have hx : ({ t with snd := { t.snd with syn_retransmit := t.snd.syn_retransmit + 1 } } : Tcb).rto = t.rto := rfl
      refine retransmit_fin_rto_bounds _ now ?_ ?_ <;> rw [rtx_out_upd_rto, hx] <;> omega
    · simp [cleanup, stop_retransmit_timer, clear_delayed_ack, remove_from_tcbs]
      omega
    · exact retransmit_fin_rto_bounds t now h1 h2
  · unfold persist start_persist_timer
    simp [output_rto, output_one_pto]

/-! ## Retransmit timer effects (C6) -/

lemma output_poll_active (t : Tcb) : (output t).poll_active = true := by
  unfold output
  split <;> simp_all

lemma rtx_out_upd_spec (t : Tcb) (now : Nat) :
    (rtx_out_upd t now).snd = t.snd ∧ (rtx_out_upd t now).packetq = t.packetq ∧
    (rtx_out_upd t now).poll_active = true ∧ (rtx_out_upd t now).retransmit_armed = true ∧
    (rtx_out_upd t now).rto = min (t.rto * 2) 60000 ∧
    (rtx_out_upd t now).in_tcbs = t.in_tcbs ∧
    (rtx_out_upd t now).connect_done = t.connect_done := by
  unfold rtx_out_upd start_retransmit_timer output
  split <;> simp_all

/-- C6.  When the retransmit timer fires with a SYN pending and fewer
than 5 SYN retransmissions, the counter is bumped, output is scheduled
and the RTO doubles with the 60 s cap; once the bound is reached,
connect_done resolves with tcp_connect_error and cleanup runs.  With
unacked data, the first retransmission of the oldest segment halves
ssthresh against the flight (floored at 2 smss), every data retransmit
sets recover = SND.NXT - 1 and cwnd = smss and leaves fast recovery, and
the stored segment is re-queued unchanged while nr_transmits < 5, else
cleanup runs. -/
theorem c6_retransmit (t : Tcb) (now : Nat) (sg : Seg) (rest : List Seg) :
    (syn_needs_on t = true → fin_needs_on t = false → t.snd.data = [] →
     t.snd.syn_retransmit < 5 →
       (retransmit t now).snd.syn_retransmit = t.snd.syn_retransmit + 1 ∧
       (retransmit t now).poll_active = true ∧
       (retransmit t now).retransmit_armed = true ∧
       (retransmit t now).rto = min (t.rto * 2) 60000) ∧
    (syn_needs_on t = true → 5 ≤ t.snd.syn_retransmit →
       (retransmit t now).connect_done = PromiseSt.failed_connect ∧
       (retransmit t now).snd.data = [] ∧ (retransmit t now).snd.unsent = [] ∧
       (retransmit t now).retransmit_armed = false ∧
       (retransmit t now).in_tcbs = false) ∧
    (syn_needs_on t = false → fin_needs_on t = false → t.snd.data = sg :: rest →
     sg.nr_transmits < 5 →
       (sg.nr_transmits = 0 →
          (retransmit t now).snd.ssthresh = max (flight_size (sg :: rest) / 2) (2 * t.snd.mss)) ∧
       (sg.nr_transmits ≠ 0 → (retransmit t now).snd.ssthresh = t.snd.ssthresh) ∧
       (retransmit t now).snd.recover = seqSubN t.snd.next 1 ∧
       (retransmit t now).snd.cwnd = t.snd.mss ∧
       (retransmit t now).snd.dupacks = 0 ∧
       (retransmit t now).snd.limited_transfer = 0 ∧
       (retransmit t now).snd.partial_ack = 0 ∧
       (retransmit t now).snd.data = { sg with nr_transmits := sg.nr_transmits + 1 } :: rest ∧
       (retransmit t now).packetq = t.packetq ++ [sg.pkt] ∧
       (retransmit t now).poll_active = true ∧
       (retransmit t now).retransmit_armed = true ∧
       (retransmit t now).rto = min (t.rto * 2) 60000) ∧
    (syn_needs_on t = false → fin_needs_on t = false → t.snd.data = sg :: rest →
     5 ≤ sg.nr_transmits →
       (retransmit t now).snd.data = [] ∧ (retransmit t now).snd.unsent = [] ∧
       (retransmit t now).retransmit_armed = false ∧
       (retransmit t now).in_tcbs = false ∧
       (retransmit t now).snd.cwnd = t.snd.mss ∧
       (retransmit t now).snd.recover = seqSubN t.snd.next 1 ∧
       (retransmit t now).snd.dupacks = 0) := by
  refine ⟨?_, ?_, ?_, ?_⟩
  · intro hs hf hd hn
    have step1 : retransmit t now = retransmit_fin (rtx_out_upd
        { t with snd := { t.snd with syn_retransmit := t.snd.syn_retransmit + 1 } } now) now := by
      unfold retransmit
      rw [hs, if_pos rfl, if_pos hn]
    rw [step1]
    have hfin : fin_needs_on (rtx_out_upd
        { t with snd := { t.snd with syn_retransmit := t.snd.syn_retransmit + 1 } } now) = false := by
      have he : fin_needs_on (rtx_out_upd
          { t with snd := { t.snd with syn_retransmit := t.snd.syn_retransmit + 1 } } now)
          = fin_needs_on t := by
        unfold fin_needs_on inState rtx_out_upd start_retransmit_timer output
        split <;> rfl
      rw [he]
      exact hf
    have hd2 : (rtx_out_upd
        { t with snd := { t.snd with syn_retransmit := t.snd.syn_retransmit + 1 } } now).snd.data = [] := by
      rw [(rtx_out_upd_spec _ now).1]
      exact hd
    unfold retransmit_fin retransmit_data
    rw [hfin]
    simp only [Bool.false_eq_true, if_false, hd2]
    have h3 := rtx_out_upd_spec
      ({ t with snd := { t.snd with syn_retransmit := t.snd.syn_retransmit + 1 } }) now
    refine ⟨?_, h3.2.2.1, h3.2.2.2.1, h3.2.2.2.2.1⟩
    rw [h3.1]
  · intro hs hn
    unfold retransmit
    rw [hs, if_pos rfl, if_neg (by omega)]
    exact ⟨rfl, rfl, rfl, rfl, rfl⟩
  · intro hs hf hd hn
    unfold retransmit retransmit_fin retransmit_data rtx_out_upd start_retransmit_timer
      output queue_packet exit_fast_recovery
    rw [hs, hf]
    simp only [Bool.false_eq_true, if_false, hd]
    rw [if_pos hn]
    by_cases h0 : sg.nr_transmits = 0
    · rw [if_pos (show (sg.nr_transmits == 0) = true by simp [h0])]
      split_ifs with hq <;>
        refine ⟨fun _ => rfl, fun hx => absurd h0 hx, rfl, rfl, rfl, rfl, rfl, rfl, rfl, ?_, rfl, rfl⟩ <;>
        first | rfl | exact hq
    · rw [if_neg (show ¬ ((sg.nr_transmits == 0) = true) by simp [h0])]
      split_ifs with hq <;>
        refine ⟨fun hx => absurd hx h0, fun _ => rfl, rfl, rfl, rfl, rfl, rfl, rfl, rfl, ?_, rfl, rfl⟩ <;>
        first | rfl | exact hq
  · intro hs hf hd hn
    unfold retransmit retransmit_fin retransmit_data cleanup stop_retransmit_timer
      clear_delayed_ack remove_from_tcbs
    rw [hs, hf]
    simp only [Bool.false_eq_true, if_false, hd]
    rw [if_neg (show ¬ (sg.nr_transmits < 5) by omega)]
    split_ifs <;> exact ⟨rfl, rfl, rfl, rfl, rfl, rfl, rfl⟩

/-- C6 witness: the four retransmit scenarios instantiated at concrete
TCBs: a SYN retry, SYN exhaustion, a first data retransmission, and data
exhaustion. -/
theorem c6_retransmit_witness :
    ((retransmit t_c6 5).snd.syn_retransmit = t_c6.snd.syn_retransmit + 1 ∧
     (retransmit t_c6 5).poll_active = true ∧
     (retransmit t_c6 5).retransmit_armed = true ∧
     (retransmit t_c6 5).rto = min (t_c6.rto * 2) 60000) ∧
    ((retransmit t_c6b 5).connect_done = PromiseSt.failed_connect ∧
     (retransmit t_c6b 5).snd.data = [] ∧ (retransmit t_c6b 5).snd.unsent = [] ∧
     (retransmit t_c6b 5).retransmit_armed = false ∧
     (retransmit t_c6b 5).in_tcbs = false) ∧
    ((seg_a.nr_transmits = 0 →
        (retransmit t_c6d 5).snd.ssthresh = max (flight_size (seg_a :: [seg_b]) / 2) (2 * t_c6d.snd.mss)) ∧
     (seg_a.nr_transmits ≠ 0 → (retransmit t_c6d 5).snd.ssthresh = t_c6d.snd.ssthresh) ∧
     (retransmit t_c6d 5).snd.recover = seqSubN t_c6d.snd.next 1 ∧
     (retransmit t_c6d 5).snd.cwnd = t_c6d.snd.mss ∧
     (retransmit t_c6d 5).snd.dupacks = 0 ∧
     (retransmit t_c6d 5).snd.limited_transfer = 0 ∧
     (retransmit t_c6d 5).snd.partial_ack = 0 ∧
     (retransmit t_c6d 5).snd.data = { seg_a with nr_transmits := seg_a.nr_transmits + 1 } :: [seg_b] ∧
     (retransmit t_c6d 5).packetq = t_c6d.packetq ++ [seg_a.pkt] ∧
     (retransmit t_c6d 5).poll_active = true ∧
     (retransmit t_c6d 5).retransmit_armed = true ∧
     (retransmit t_c6d 5).rto = min (t_c6d.rto * 2) 60000) ∧
    ((retransmit t_c6e 5).snd.data = [] ∧ (retransmit t_c6e 5).snd.unsent = [] ∧
     (retransmit t_c6e 5).retransmit_armed = false ∧
     (retransmit t_c6e 5).in_tcbs = false ∧
     (retransmit t_c6e 5).snd.cwnd = t_c6e.snd.mss ∧
     (retransmit t_c6e 5).snd.recover = seqSubN t_c6e.snd.next 1 ∧
     (retransmit t_c6e 5).snd.dupacks = 0) :=
  ⟨(c6_retransmit t_c6 5 seg_a []).1 (by decide) (by decide) rfl (by decide),
   (c6_retransmit t_c6b 5 seg_a []).2.1 (by decide) (by decide),
   (c6_retransmit t_c6d 5 seg_a [seg_b]).2.2.1 (by decide) (by decide) rfl (by decide),
   (c6_retransmit t_c6e 5 { seg_a with nr_transmits := 5 } [seg_b]).2.2.2
     (by decide) (by decide) rfl (by decide)⟩

/-! ## Frame and composition lemmas for the input handler (C4) -/

lemma seqLtb_irrefl (a : Nat) : seqLtb a a = false := by
  unfold seqLtb seqSub i32ofU32 dist W32 HALF32
  simp only [decide_eq_false_iff_not, not_lt]
  split <;> omega

lemma do_reset_dupacks (t : Tcb) : (do_reset t).snd.dupacks = t.snd.dupacks := by
  unfold do_reset cleanup stop_retransmit_timer clear_delayed_ack remove_from_tcbs
  dsimp only []
  split_ifs <;> rfl

lemma do_time_wait_snd_dupacks (t : Tcb) : (do_time_wait t).snd.dupacks = t.snd.dupacks := rfl

lemma output_snd (t : Tcb) : (output t).snd = t.snd := by
  unfold output
  split <;> rfl

lemma output_state (t : Tcb) : (output t).state = t.state := by
  unfold output
  split <;> rfl

lemma output_packetq (t : Tcb) : (output t).packetq = t.packetq := by
  unfold output
  split <;> rfl

lemma upd_window_dupacks (t : Tcb) (th : TcpHdr) (a b now : Nat) :
    (upd_window t th a b now).snd.dupacks = t.snd.dupacks := by
  unfold upd_window start_persist_timer stop_persist_timer
  dsimp only []
  split_ifs <;> rfl

lemma set_rtx_timer_dupacks (t : Tcb) (now : Nat) :
    (set_rtx_timer t now).snd.dupacks = t.snd.dupacks := by
  unfold set_rtx_timer signal_all_data_acked stop_retransmit_timer start_retransmit_timer
  dsimp only []
  split_ifs <;> rfl

lemma fast_retransmit_snd_dupacks (t : Tcb) :
    (fast_retransmit t).snd.dupacks = t.snd.dupacks := by
  unfold fast_retransmit queue_packet
  split
  · rfl
  · rw [output_snd]

lemma fast_retransmit_state (t : Tcb) : (fast_retransmit t).state = t.state := by
  unfold fast_retransmit queue_packet
  split
  · rfl
  · rw [output_state]

lemma update_rto_dupacks (t : Tcb) (now tx : Nat) :
    (update_rto t now tx).snd.dupacks = t.snd.dupacks := by
  unfold update_rto
  split <;> rfl

lemma update_cwnd_dupacks (t : Tcb) (a : Nat) :
    (update_cwnd t a).snd.dupacks = t.snd.dupacks := by
  unfold update_cwnd
  split <;> rfl

lemma dsa_loop_dupacks (now a : Nat) :
    ∀ (l : List Seg) (t : Tcb) (tot : Nat),
      (dsa_loop now a l t tot).1.snd.dupacks = t.snd.dupacks := by
  intro l
  induction l with
  | nil => intro t tot; rfl
  | cons sg rest ih =>
    intro t tot
    unfold dsa_loop
    split
    · rw [ih]
      simp only [update_cwnd_dupacks]
      split <;> simp only [update_rto_dupacks]
    · rfl

lemma dsa_dupacks (t : Tcb) (a now : Nat) (t2 : Tcb) (n : Nat)
    (h : data_segment_acked t a now = some (t2, n)) :
    t2.snd.dupacks = t.snd.dupacks := by
  unfold data_segment_acked at h
  dsimp only [] at h
  split at h
  · split at h
    · exact absurd h (by simp)
    · rw [Option.some.injEq, Prod.mk.injEq] at h
      rw [← h.1, update_cwnd_dupacks]
      exact dsa_loop_dupacks now a t.snd.data t 0
  · rw [Option.some.injEq, Prod.mk.injEq] at h
    rw [← h.1]
    exact dsa_loop_dupacks now a t.snd.data t 0

lemma signal_data_received_snd (t : Tcb) : (signal_data_received t).snd = t.snd := by
  unfold signal_data_received
  split <;> rfl

lemma signal_data_received_state (t : Tcb) : (signal_data_received t).state = t.state := by
  unfold signal_data_received
  split <;> rfl

lemma signal_data_received_packetq (t : Tcb) : (signal_data_received t).packetq = t.packetq := by
  unfold signal_data_received
  split <;> rfl

lemma moo_snd (t : Tcb) : (merge_out_of_order t).2.snd = t.snd := by
  unfold merge_out_of_order
  split <;> rfl

lemma moo_state (t : Tcb) : (merge_out_of_order t).2.state = t.state := by
  unfold merge_out_of_order
  split <;> rfl

lemma moo_packetq (t : Tcb) : (merge_out_of_order t).2.packetq = t.packetq := by
  unfold merge_out_of_order
  split <;> rfl

lemma ssa_snd (t : Tcb) (l : Nat) : (should_send_ack t l).2.snd = t.snd := by
  unfold should_send_ack
  dsimp only []
  split_ifs <;> rfl

lemma ssa_state (t : Tcb) (l : Nat) : (should_send_ack t l).2.state = t.state := by
  unfold should_send_ack
  dsimp only []
  split_ifs <;> rfl

lemma ssa_packetq (t : Tcb) (l : Nat) : (should_send_ack t l).2.packetq = t.packetq := by
  unfold should_send_ack
  dsimp only []
  split_ifs <;> rfl

lemma text_outcomes (c : IhosCont) (dod : Bool) :
    (∀ r, ihos_text c dod = .inl r → r = c.1) ∧
    (∀ c2 d2 o2, ihos_text c dod = .inr (c2, d2, o2) →
       c2.1.snd = c.1.snd ∧ c2.1.state = c.1.state ∧ c2.1.packetq = c.1.packetq) := by
  unfold ihos_text
  constructor
  · intro r h
    dsimp only [] at h
    split_ifs at h <;>
      first
        | (exact (Sum.inl.inj h).symm)
        | simp at h
  · intro c2 d2 o2 h
    dsimp only [] at h
    split_ifs at h <;>
      first
        | (simp only [Sum.inr.injEq, Prod.mk.injEq] at h
           rw [← h.1]
           refine ⟨?_, ?_, ?_⟩ <;>
             simp [signal_data_received_snd, signal_data_received_state,
               signal_data_received_packetq, moo_snd, moo_state, moo_packetq,
               ssa_snd, ssa_state, ssa_packetq])
        | simp at h

lemma ihos_pre_inorder (t : Tcb) (th : TcpHdr) (p : List Nat)
    (hacc : segment_acceptable t.rcv th.seq p.length = true)
    (hseq : th.seq = t.rcv.next) :
    ihos_pre t th p = Sum.inr (t, th.seq, p.length, p) := by
  unfold ihos_pre
  dsimp only []
  rw [hacc]
  simp only [Bool.not_true, Bool.false_eq_true, if_false]
  rw [hseq, seqLtb_irrefl]
  simp

lemma ihos_rst_skip (th : TcpHdr) (c : IhosCont) (hrst : th.f_rst = false) :
    ihos_rst th c = Sum.inr c := by
  unfold ihos_rst
  rw [hrst]
  simp

lemma ihos_syn_skip (th : TcpHdr) (c : IhosCont) (hsyn : th.f_syn = false) :
    ihos_syn th c = Sum.inr c := by
  unfold ihos_syn
  rw [hsyn]
  simp

lemma handler_reduces (t : Tcb) (th : TcpHdr) (p : List Nat) (now : Nat)
    (hacc : segment_acceptable t.rcv th.seq p.length = true)
    (hseq : th.seq = t.rcv.next) (hrst : th.f_rst = false) (hsyn : th.f_syn = false) :
    input_handle_other_state t th p now =
      match ihos_ack th now (t, th.seq, p.length, p) with
      | .inl r => r
      | .inr (c, dod) =>
        match ihos_text c dod with
        | .inl r => some r
        | .inr (c2, dod2, dout) => some (ihos_fin_final th c2 dod2 dout) := by
  unfold input_handle_other_state
  rw [ihos_pre_inorder t th p hacc hseq]
  dsimp only []
  rw [ihos_rst_skip th _ hrst]
  dsimp only []
  rw [ihos_syn_skip th _ hsyn]

lemma handler_syn_case (t : Tcb) (th : TcpHdr) (p : List Nat) (now : Nat)
    (hacc : segment_acceptable t.rcv th.seq p.length = true)
    (hseq : th.seq = t.rcv.next) (hrst : th.f_rst = false) (hsyn : th.f_syn = true) :
    input_handle_other_state t th p now
      = some (do_reset (respond_with_reset_t t th)) := by
  unfold input_handle_other_state
  rw [ihos_pre_inorder t th p hacc hseq]
  dsimp only []
  rw [ihos_rst_skip th _ hrst]
  dsimp only []
  unfold ihos_syn
  rw [hsyn]
  simp

lemma ack_reduces (t : Tcb) (th : TcpHdr) (ss sl : Nat) (p : List Nat) (now : Nat)
    (hack : th.f_ack = true) (hsr : inState t SYN_RECEIVED = false) :
    ihos_ack th now (t, ss, sl, p) =
      match ihos_ack_estcw t th ss sl now with
      | .inl r => .inl r
      | .inr (t2, dod) =>
        match ihos_ack_fin_states t2 th with
        | .inl r => .inl (some r)
        | .inr t3 => .inr ((t3, ss, sl, p), dod) := by
  unfold ihos_ack
  rw [hack]
  simp only [Bool.not_true, Bool.false_eq_true, if_false, hsr]

lemma fin_states_skip (t : Tcb) (th : TcpHdr)
    (h1 : inState t FIN_WAIT_1 = false) (h2 : inState t CLOSING = false)
    (h3 : inState t LAST_ACK = false) :
    ihos_ack_fin_states t th = Sum.inr t := by
  unfold ihos_ack_fin_states
  rw [h1]
  simp only [Bool.false_eq_true, if_false]
  rw [h2]
  simp only [Bool.false_eq_true, if_false]
  rw [h3]
  simp

lemma can_send_dupacks (s : Snd) : (can_send s).2.dupacks = s.dupacks := by
  unfold can_send
  dsimp only []
  split_ifs <;> rfl

lemma can_send_cwnd (s : Snd) : (can_send s).2.cwnd = s.cwnd := by
  unfold can_send
  dsimp only []
  split_ifs <;> rfl

lemma fin_final_id (th : TcpHdr) (t : Tcb) (ss sl : Nat) (p : List Nat)
    (hfin : th.f_fin = false) :
    ihos_fin_final th (t, ss, sl, p) false false = t := by
  unfold ihos_fin_final
  rw [hfin]
  simp only [Bool.false_eq_true, if_false]

lemma fin_final_nofin (th : TcpHdr) (t : Tcb) (ss sl : Nat) (p : List Nat) (dod dout : Bool)
    (hfin : th.f_fin = false) :
    (ihos_fin_final th (t, ss, sl, p) dod dout).snd.dupacks = t.snd.dupacks ∧
    (ihos_fin_final th (t, ss, sl, p) dod dout).snd.cwnd = t.snd.cwnd := by
  unfold ihos_fin_final
  rw [hfin]
  simp only [Bool.false_eq_true, if_false]
  unfold can_send_t clear_delayed_ack
  dsimp only []
  split_ifs <;> constructor <;>
    simp [output_snd, can_send_dupacks, can_send_cwnd]

lemma do_time_wait_dupacks (t : Tcb) : (do_time_wait t).snd.dupacks = t.snd.dupacks := rfl

lemma fin_final_dupacks (th : TcpHdr) (t : Tcb) (ss sl : Nat) (p : List Nat) (dod dout : Bool) :
    (ihos_fin_final th (t, ss, sl, p) dod dout).snd.dupacks = t.snd.dupacks := by
  by_cases hf : th.f_fin
  · unfold ihos_fin_final
    rw [hf]
    simp only [if_true]
    unfold can_send_t clear_delayed_ack
    dsimp only []
    split_ifs <;>
      (try simp [do_time_wait_dupacks, output_snd, signal_data_received_snd, can_send_dupacks]) <;>
      (try split_ifs) <;>
      (try simp [do_time_wait_dupacks, output_snd, signal_data_received_snd, can_send_dupacks])
  · have := fin_final_nofin th t ss sl p dod dout (by simp [hf])
    exact this.1

lemma update_rto_state (t : Tcb) (now tx : Nat) : (update_rto t now tx).state = t.state := by
  unfold update_rto
  split <;> rfl

lemma update_cwnd_state (t : Tcb) (a : Nat) : (update_cwnd t a).state = t.state := by
  unfold update_cwnd
  split <;> rfl

lemma dsa_loop_state (now a : Nat) :
    ∀ (l : List Seg) (t : Tcb) (tot : Nat),
      (dsa_loop now a l t tot).1.state = t.state := by
  intro l
  induction l with
  | nil => intro t tot; rfl
  | cons sg rest ih =>
    intro t tot
    unfold dsa_loop
    split
    · rw [ih]
      simp only [update_cwnd_state]
      split <;> simp only [update_rto_state]
    · rfl

lemma dsa_state (t : Tcb) (a now : Nat) (t2 : Tcb) (n : Nat)
    (h : data_segment_acked t a now = some (t2, n)) :
    t2.state = t.state := by
  unfold data_segment_acked at h
  dsimp only [] at h
  split at h
  · split at h
    · exact absurd h (by simp)
    · rw [Option.some.injEq, Prod.mk.injEq] at h
      rw [← h.1, update_cwnd_state]
      exact dsa_loop_state now a t.snd.data t 0
  · rw [Option.some.injEq, Prod.mk.injEq] at h
    rw [← h.1]
    exact dsa_loop_state now a t.snd.data t 0

lemma upd_window_state (t : Tcb) (th : TcpHdr) (a b now : Nat) :
    (upd_window t th a b now).state = t.state := by
  unfold upd_window start_persist_timer stop_persist_timer
  dsimp only []
  split_ifs <;> rfl

lemma set_rtx_timer_state (t : Tcb) (now : Nat) :
    (set_rtx_timer t now).state = t.state := by
  unfold set_rtx_timer signal_all_data_acked stop_retransmit_timer start_retransmit_timer
  dsimp only []
  split_ifs <;> rfl

lemma estcw_dup_case (t : Tcb) (th : TcpHdr) (ss now : Nat)
    (hstb : inState t (ESTABLISHED ||| CLOSE_WAIT) = true)
    (hne : t.snd.data.isEmpty = false)
    (hfin : th.f_fin = false) (hsyn : th.f_syn = false)
    (hackEq : th.ack = t.snd.unacknowledged)
    (hwin : (th.window <<< t.snd.window_scale) % W32 = t.snd.window) :
    ihos_ack_estcw t th ss 0 now =
      (let t1 : Tcb := { t with snd := { t.snd with dupacks := (t.snd.dupacks + 1) % W16 } }
       let smss := t1.snd.mss
       if t1.snd.dupacks == 1 || t1.snd.dupacks == 2 then Sum.inr (t1, true)
       else if t1.snd.dupacks == 3 then
         let t2 :=
           if seqGtb (seqSubN th.ack 1) t1.snd.recover then
             let t2 := { t1 with snd := { t1.snd with recover := seqSubN t1.snd.next 1 } }
             let t2 := { t2 with snd := { t2.snd with
               ssthresh := max ((flight_size t2.snd.data + (W32 - t2.snd.limited_transfer % W32)) % W32 / 2)
                               (2 * smss) } }
             fast_retransmit t2
           else t1
         Sum.inr ({ t2 with snd := { t2.snd with cwnd := (t2.snd.ssthresh + 3 * smss) % W32 } }, false)
       else if t1.snd.dupacks > 3 then
         Sum.inr ({ t1 with snd := { t1.snd with cwnd := (t1.snd.cwnd + smss) % W32 } }, true)
       else Sum.inr (t1, false)) := by
  unfold ihos_ack_estcw
  dsimp only []
  rw [hstb]
  simp only [Bool.not_true, Bool.false_eq_true, if_false]
  have h1 : (seqLtb t.snd.unacknowledged th.ack && seqLeb th.ack t.snd.next) = false := by
    rw [hackEq, seqLtb_irrefl, Bool.false_and]
  rw [h1]
  simp only [Bool.false_eq_true, if_false]
  have h2 : (!t.snd.data.isEmpty && (0 == 0 : Bool) && !th.f_fin && !th.f_syn &&
      (th.ack == t.snd.unacknowledged) &&
      ((th.window <<< t.snd.window_scale) % W32 == t.snd.window)) = true := by
    simp [hne, hfin, hsyn, hackEq, hwin]
  rw [h2, if_pos rfl]

lemma exit_fast_recovery_state (t : Tcb) : (exit_fast_recovery t).state = t.state := rfl

lemma exit_fast_recovery_dupacks (t : Tcb) : (exit_fast_recovery t).snd.dupacks = 0 := rfl

lemma start_retransmit_timer_state (t : Tcb) (now : Nat) :
    (start_retransmit_timer t now).state = t.state := rfl

lemma start_retransmit_timer_dupacks (t : Tcb) (now : Nat) :
    (start_retransmit_timer t now).snd.dupacks = t.snd.dupacks := rfl

set_option maxHeartbeats 3200000 in
lemma estcw_outcomes (t : Tcb) (th : TcpHdr) (ss sl now : Nat) :
    (∀ r, ihos_ack_estcw t th ss sl now = .inl r →
       r = none ∨ ∃ t2, r = some t2 ∧ t2.snd.dupacks = t.snd.dupacks ∧ t2.state = t.state) ∧
    (∀ t2 dod, ihos_ack_estcw t th ss sl now = .inr (t2, dod) →
       t2.state = t.state ∧
       (t2.snd.dupacks = t.snd.dupacks ∨ t2.snd.dupacks = 0 ∨
        (t2.snd.dupacks = (t.snd.dupacks + 1) % W16 ∧
         t.snd.data ≠ [] ∧ sl = 0 ∧ th.f_fin = false ∧ th.f_syn = false ∧
         th.ack = t.snd.unacknowledged ∧
         (th.window <<< t.snd.window_scale) % W32 = t.snd.window))) := by
  unfold ihos_ack_estcw
  dsimp only []
  constructor
  · intro r h
    split_ifs at h <;>
      first
        | (refine Or.inr ⟨output t, (Sum.inl.inj h).symm, ?_, output_state t⟩
           rw [output_snd])
        | (split at h <;> (try split_ifs at h) <;>
           first
             | exact Or.inl (Sum.inl.inj h).symm
             | simp at h)
        | simp at h
  · intro t2 dod h
    by_cases cA : (!(inState t (ESTABLISHED ||| CLOSE_WAIT)) : Bool) = true
    · rw [if_pos cA] at h
      rw [Sum.inr.injEq, Prod.mk.injEq] at h
      exact ⟨by rw [← h.1], Or.inl (by rw [← h.1])⟩
    · rw [if_neg cA] at h
      by_cases cB : (seqLtb t.snd.unacknowledged th.ack && seqLeb th.ack t.snd.next) = true
      · rw [if_pos cB] at h
        rcases hdsa : data_segment_acked t th.ack now with _ | ab
        · rw [hdsa] at h
          simp at h
        · rcases ab with ⟨a, b⟩
          rw [hdsa] at h
          dsimp only [] at h
          have hast := dsa_state t th.ack now a b hdsa
          have hadp := dsa_dupacks t th.ack now a b hdsa
          have main : ∀ tA : Tcb, tA.state = t.state → tA.snd.dupacks = t.snd.dupacks →
              ((if tA.snd.dupacks ≥ 3 then
                 if seqGtb th.ack tA.snd.recover = true then
                   Sum.inr (set_rtx_timer (exit_fast_recovery
                     { tA with snd := { tA.snd with
                       cwnd := min tA.snd.ssthresh ((max (flight_size tA.snd.data) tA.snd.mss + tA.snd.mss) % W32) } }) now,
                     true)
                 else
                   (let t3 := fast_retransmit tA
                    let t3 := { t3 with snd := { t3.snd with cwnd := (t3.snd.cwnd + (W32 - b % W32)) % W32 } }
                    let t3 := if b ≥ tA.snd.mss then
                        { t3 with snd := { t3.snd with cwnd := (t3.snd.cwnd + tA.snd.mss) % W32 } } else t3
                    let t3 := { t3 with snd := { t3.snd with partial_ack := t3.snd.partial_ack + 1 } }
                    let t3 := if t3.snd.partial_ack == 1 then start_retransmit_timer t3 now else t3
                    Sum.inr (t3, true))
               else Sum.inr (set_rtx_timer (exit_fast_recovery tA) now, true))
                 : Sum (Option Tcb) (Tcb × Bool)) = Sum.inr (t2, dod) →
              t2.state = t.state ∧
              (t2.snd.dupacks = t.snd.dupacks ∨ t2.snd.dupacks = 0 ∨
               (t2.snd.dupacks = (t.snd.dupacks + 1) % W16 ∧
                t.snd.data ≠ [] ∧ sl = 0 ∧ th.f_fin = false ∧ th.f_syn = false ∧
                th.ack = t.snd.unacknowledged ∧
                (th.window <<< t.snd.window_scale) % W32 = t.snd.window)) := by
            intro tA hA1 hA2 hh
            dsimp only [] at hh
            split_ifs at hh <;>
              rw [Sum.inr.injEq, Prod.mk.injEq] at hh <;>
              refine ⟨by rw [← hh.1]
                         try simp [set_rtx_timer_state, exit_fast_recovery_state,
                           fast_retransmit_state, start_retransmit_timer_state, hA1], ?_⟩ <;>
              first
                | (refine Or.inr (Or.inl ?_)
                   rw [← hh.1]
                   simp [set_rtx_timer_dupacks, exit_fast_recovery_dupacks]
                   done)
                | (refine Or.inl ?_
                   rw [← hh.1]
                   simp [start_retransmit_timer_dupacks, fast_retransmit_snd_dupacks, hA2]
                   done)
          by_cases cW : (seqLtb a.snd.wl1 ss || (a.snd.wl1 == ss && seqLeb a.snd.wl2 th.ack)) = true
          · rw [if_pos cW] at h
            exact main (upd_window a th ss th.ack now)
              (by rw [upd_window_state, hast]) (by rw [upd_window_dupacks, hadp]) h
          · rw [if_neg cW] at h
            exact main a hast hadp h
      · rw [if_neg cB] at h
        by_cases cC : (!t.snd.data.isEmpty && sl == 0 && !th.f_fin && !th.f_syn &&
            (th.ack == t.snd.unacknowledged) &&
            ((th.window <<< t.snd.window_scale) % W32 == t.snd.window)) = true
        · rw [if_pos cC] at h
          have cC2 := cC
          simp only [Bool.and_eq_true, Bool.not_eq_true', beq_iff_eq] at cC2
          obtain ⟨⟨⟨⟨⟨c1, c2⟩, c3⟩, c4⟩, c5⟩, c6⟩ := cC2
          have hnd : t.snd.data ≠ [] := by
            intro he
            rw [he] at c1
            simp at c1
          try dsimp only [] at h
          split_ifs at h <;>
            rw [Sum.inr.injEq, Prod.mk.injEq] at h <;>
            refine ⟨?_, Or.inr (Or.inr ⟨?_, hnd, c2, c3, c4, c5, c6⟩)⟩ <;>
            first
              | (rw [← h.1]
                 simp [fast_retransmit_state]
                 done)
              | (rw [← h.1]
                 simp [fast_retransmit_snd_dupacks]
                 done)
              | (rw [← h.1]
                 done)
        · rw [if_neg cC] at h
          by_cases cD : (seqGtb th.ack t.snd.next) = true
          · rw [if_pos cD] at h
            simp at h
          · rw [if_neg cD] at h
            split_ifs at h <;>
              rw [Sum.inr.injEq, Prod.mk.injEq] at h <;>
              exact ⟨by rw [← h.1]; try simp [upd_window_state],
                Or.inl (by rw [← h.1]; try simp [upd_window_dupacks])⟩

lemma ihos_text_nodata (u : Tcb) (ss sl : Nat) (dod : Bool)
    (hs : u.state = ESTABLISHED) :
    ihos_text (u, ss, sl, ([] : List Nat)) dod = Sum.inr ((u, ss, sl, []), dod, false) := by
  unfold ihos_text
  dsimp only []
  rw [show inState u (ESTABLISHED ||| FIN_WAIT_1 ||| FIN_WAIT_1) = true by
    unfold inState; rw [hs]; decide]
  simp

lemma ihos_text_cw (u : Tcb) (ss sl : Nat) (p : List Nat) (dod : Bool)
    (hs : u.state = CLOSE_WAIT) :
    ihos_text (u, ss, sl, p) dod = Sum.inl u := by
  unfold ihos_text
  dsimp only []
  rw [show inState u (ESTABLISHED ||| FIN_WAIT_1 ||| FIN_WAIT_1) = false by
    unfold inState; rw [hs]; decide]
  simp only [Bool.false_eq_true, if_false]
  rw [show inState u (CLOSE_WAIT ||| CLOSING ||| LAST_ACK ||| TIME_WAIT) = true by
    unfold inState; rw [hs]; decide]
  simp

/-- C7 witness: the bounds instantiated at the zero TCB. -/
theorem c7_rto_bounds_witness :
    ((update_rto tcb0 5 1).rto
       = min (max ((update_rto tcb0 5 1).snd.srtt
           + max 1 (4 * (update_rto tcb0 5 1).snd.rttvar)) 1000) 60000 ∧
     1000 ≤ (update_rto tcb0 5 1).rto ∧ (update_rto tcb0 5 1).rto ≤ 60000) ∧
    (1000 ≤ (retransmit tcb0 5).rto ∧ (retransmit tcb0 5).rto ≤ 60000) ∧
    ((persist tcb0 5).persist_time_out ≤ 60000) :=
  ⟨(c7_rto_bounds tcb0 5 1).1,
   (c7_rto_bounds tcb0 5 1).2.1 (by decide) (by decide),
   (c7_rto_bounds tcb0 5 1).2.2⟩

set_option maxRecDepth 8192 in
set_option maxHeartbeats 1600000 in
/-- C4: in ESTABLISHED or CLOSE_WAIT, a segment reaching the ACK processing
counts as a duplicate ACK (the dup counter is bumped) exactly when SND.data
is non-empty, the payload is empty, FIN and SYN are clear, the ACK equals
SND.UNA and the scaled advertised window equals SND.window; on the third
duplicate ACK, when SEG.ACK - 1 is beyond recover, recover becomes
SND.NXT - 1, ssthresh becomes max((flight_size - limited_transfer)/2,
2*smss) and the head of SND.data is fast-retransmitted, and in every
third-duplicate case cwnd becomes ssthresh + 3*smss; each further duplicate
ACK adds one smss to cwnd. -/
theorem c4_duplicate_ack (t : Tcb) (th : TcpHdr) (p : List Nat) (now : Nat)
    (hstE : t.state = ESTABLISHED ∨ t.state = CLOSE_WAIT)
    (hacc : segment_acceptable t.rcv th.seq p.length = true)
    (hseq : th.seq = t.rcv.next)
    (hrst : th.f_rst = false) (hack : th.f_ack = true) :
    (th.f_syn = false → th.f_fin = false → p = [] → t.snd.data ≠ [] →
     th.ack = t.snd.unacknowledged →
     (th.window <<< t.snd.window_scale) % W32 = t.snd.window →
     ∃ t2, input_handle_other_state t th p now = some t2 ∧
       t2.snd.dupacks = (t.snd.dupacks + 1) % W16 ∧
       ((t.snd.dupacks + 1) % W16 = 3 →
          t2.snd.cwnd = (t2.snd.ssthresh + 3 * t.snd.mss) % W32 ∧
          (seqGtb (seqSubN th.ack 1) t.snd.recover = true →
             t2.snd.recover = seqSubN t.snd.next 1 ∧
             t2.snd.ssthresh =
               max ((flight_size t.snd.data + (W32 - t.snd.limited_transfer % W32)) % W32 / 2)
                 (2 * t.snd.mss) ∧
             ∀ sg rest, t.snd.data = sg :: rest →
               t2.snd.data = { sg with nr_transmits := sg.nr_transmits + 1 } :: rest) ∧
          (seqGtb (seqSubN th.ack 1) t.snd.recover = false →
             t2.snd.recover = t.snd.recover ∧ t2.snd.ssthresh = t.snd.ssthresh ∧
             t2.snd.data = t.snd.data)) ∧
       (3 < (t.snd.dupacks + 1) % W16 →
          t2.snd.cwnd = (t.snd.cwnd + t.snd.mss) % W32)) ∧
    (∀ t2, input_handle_other_state t th p now = some t2 →
       t2.snd.dupacks ≠ t.snd.dupacks → t2.snd.dupacks ≠ 0 →
       t.snd.data ≠ [] ∧ p.length = 0 ∧ th.f_fin = false ∧ th.f_syn = false ∧
       th.ack = t.snd.unacknowledged ∧
       (th.window <<< t.snd.window_scale) % W32 = t.snd.window ∧
       t2.snd.dupacks = (t.snd.dupacks + 1) % W16) := by
  have hstb : inState t (ESTABLISHED ||| CLOSE_WAIT) = true := by
    unfold inState
    rcases hstE with h | h <;> rw [h] <;> decide
  have hsr : inState t SYN_RECEIVED = false := by
    unfold inState
    rcases hstE with h | h <;> rw [h] <;> decide
  have hfss : ∀ u : Tcb, u.state = t.state → ihos_ack_fin_states u th = Sum.inr u := by
    intro u hu
    refine fin_states_skip u th ?_ ?_ ?_ <;>
      (unfold inState
       rw [hu]
       rcases hstE with h | h <;> rw [h] <;> decide)
  constructor
  · intro hsyn hfin hp hne hackEq hwin
    subst hp
    have hne2 : t.snd.data.isEmpty = false := by
      rcases hd : t.snd.data with _ | ⟨a, l⟩
      · exact absurd hd hne
      · rfl
    have hcase : ∃ (u : Tcb) (dod : Bool),
        ihos_ack_estcw t th th.seq 0 now = Sum.inr (u, dod) ∧
        u.state = t.state ∧
        u.snd.dupacks = (t.snd.dupacks + 1) % W16 ∧
        ((t.snd.dupacks + 1) % W16 = 3 → dod = false ∧
           u.snd.cwnd = (u.snd.ssthresh + 3 * t.snd.mss) % W32 ∧
           (seqGtb (seqSubN th.ack 1) t.snd.recover = true →
              u.snd.recover = seqSubN t.snd.next 1 ∧
              u.snd.ssthresh =
                max ((flight_size t.snd.data + (W32 - t.snd.limited_transfer % W32)) % W32 / 2)
                  (2 * t.snd.mss) ∧
              ∀ sg rest, t.snd.data = sg :: rest →
                u.snd.data = { sg with nr_transmits := sg.nr_transmits + 1 } :: rest) ∧
           (seqGtb (seqSubN th.ack 1) t.snd.recover = false →
              u.snd.recover = t.snd.recover ∧ u.snd.ssthresh = t.snd.ssthresh ∧
              u.snd.data = t.snd.data)) ∧
        (3 < (t.snd.dupacks + 1) % W16 → u.snd.cwnd = (t.snd.cwnd + t.snd.mss) % W32) := by
      rw [estcw_dup_case t th th.seq now hstb hne2 hfin hsyn hackEq hwin]
      dsimp only []
      by_cases h12 : ((t.snd.dupacks + 1) % W16 == 1 || (t.snd.dupacks + 1) % W16 == 2) = true
      · rw [if_pos h12]
        simp only [Bool.or_eq_true, beq_iff_eq] at h12
        refine ⟨_, _, rfl, rfl, rfl, ?_, ?_⟩
        · intro h3
          exfalso
          omega
        · intro h4
          exfalso
          omega
      · rw [if_neg h12]
        by_cases h3 : ((t.snd.dupacks + 1) % W16 == 3) = true
        · rw [if_pos h3]
          simp only [beq_iff_eq] at h3
          by_cases hgt : seqGtb (seqSubN th.ack 1) t.snd.recover = true
          · rw [if_pos hgt]
            try dsimp only []
            obtain ⟨sg, rest, hdat⟩ : ∃ sg rest, t.snd.data = sg :: rest := by
              rcases hd : t.snd.data with _ | ⟨a, l⟩
              · exact absurd hd hne
              · exact ⟨a, l, rfl⟩
            rw [hdat]
            refine ⟨_, _, rfl, ?_, ?_, ?_, ?_⟩
            · unfold fast_retransmit queue_packet output
              try dsimp only []
              try split_ifs
              all_goals rfl
            · unfold fast_retransmit queue_packet output
              try dsimp only []
              try split_ifs
              all_goals rfl
            · intro _
              refine ⟨rfl, ?_, ?_, ?_⟩
              · unfold fast_retransmit queue_packet output
                try dsimp only []
                try split_ifs
                all_goals rfl
              · intro _
                refine ⟨?_, ?_, ?_⟩
                · unfold fast_retransmit queue_packet output
                  try dsimp only []
                  try split_ifs
                  all_goals rfl
                · unfold fast_retransmit queue_packet output
                  try dsimp only []
                  try split_ifs
                  all_goals rfl
                · intro sg2 rest2 he
                  rw [List.cons.injEq] at he
                  rw [← he.1, ← he.2]
                  unfold fast_retransmit queue_packet output
                  try dsimp only []
                  try split_ifs
                  all_goals rfl
              · intro hng
                rw [hgt] at hng
                exact Bool.noConfusion hng
            · intro h4
              omega
          · rw [if_neg hgt]
            refine ⟨_, _, rfl, rfl, rfl, ?_, ?_⟩
            · intro _
              refine ⟨rfl, rfl, ?_, ?_⟩
              · intro hg
                exact absurd hg hgt
              · intro _
                exact ⟨rfl, rfl, rfl⟩
            · intro h4
              omega
        · rw [if_neg h3]
          simp only [beq_iff_eq] at h3
          by_cases h4 : (t.snd.dupacks + 1) % W16 > 3
          · rw [if_pos h4]
            refine ⟨_, _, rfl, rfl, rfl, ?_, ?_⟩
            · intro h3e
              exact absurd h3e h3
            · intro _
              rfl
          · rw [if_neg h4]
            refine ⟨_, _, rfl, rfl, rfl, ?_, ?_⟩
            · intro h3e
              exact absurd h3e h3
            · intro h4e
              exact absurd h4e h4
    obtain ⟨u, dod, heq, hust, hudp, h3case, h4case⟩ := hcase
    have hred := handler_reduces t th [] now hacc hseq hrst hsyn
    simp only [List.length_nil] at hred
    rw [ack_reduces t th th.seq 0 [] now hack hsr] at hred
    rw [heq] at hred
    dsimp only [] at hred
    rw [hfss u hust] at hred
    dsimp only [] at hred
    rcases hstE with hs | hs
    · rw [ihos_text_nodata u th.seq 0 dod (by rw [hust]; exact hs)] at hred
      dsimp only [] at hred
      by_cases hd3 : (t.snd.dupacks + 1) % W16 = 3
      · obtain ⟨hdodf, hcw3, hgt3, hngt3⟩ := h3case hd3
        rw [hdodf, fin_final_id th u th.seq 0 [] hfin] at hred
        refine ⟨u, hred, hudp, fun _ => ⟨hcw3, hgt3, hngt3⟩, ?_⟩
        intro h4
        omega
      · refine ⟨_, hred, ?_, ?_, ?_⟩
        · rw [(fin_final_nofin th u th.seq 0 [] dod false hfin).1, hudp]
        · intro h3e
          exact absurd h3e hd3
        · intro h4
          rw [(fin_final_nofin th u th.seq 0 [] dod false hfin).2]
          exact h4case h4
    · rw [ihos_text_cw u th.seq 0 [] dod (by rw [hust]; exact hs)] at hred
      dsimp only [] at hred
      refine ⟨u, hred, hudp, ?_, h4case⟩
      intro h3
      obtain ⟨_, hcw3, hgt3, hngt3⟩ := h3case h3
      exact ⟨hcw3, hgt3, hngt3⟩
  · intro t2 h2 hne1 hne0
    by_cases hsy : th.f_syn = true
    · rw [handler_syn_case t th p now hacc hseq hrst hsy] at h2
      have h3 : t2.snd.dupacks = t.snd.dupacks := by
        rw [← Option.some.inj h2, do_reset_dupacks]
        rfl
      exact absurd h3 hne1
    · have hsyf : th.f_syn = false := by
        cases hb : th.f_syn with
        | false => rfl
        | true => exact absurd hb hsy
      rw [handler_reduces t th p now hacc hseq hrst hsyf] at h2
      rw [ack_reduces t th th.seq p.length p now hack hsr] at h2
      have hout := estcw_outcomes t th th.seq p.length now
      rcases hE : ihos_ack_estcw t th th.seq p.length now with r | ud
      · rw [hE] at h2
        dsimp only [] at h2
        rcases hout.1 r hE with hr | ⟨t3, hr, hdp3, _⟩
        · rw [hr] at h2
          exact Option.noConfusion h2
        · rw [hr] at h2
          have h3 : t2.snd.dupacks = t.snd.dupacks := by
            rw [← Option.some.inj h2]
            exact hdp3
          exact absurd h3 hne1
      · obtain ⟨u, dod⟩ := ud
        rw [hE] at h2
        dsimp only [] at h2
        obtain ⟨hust, hdisj⟩ := hout.2 u dod hE
        rw [hfss u hust] at h2
        dsimp only [] at h2
        have hdup2 : t2.snd.dupacks = u.snd.dupacks := by
          rcases hT : ihos_text (u, th.seq, p.length, p) dod with r2 | cdo
          · rw [hT] at h2
            dsimp only [] at h2
            have hr2 := (text_outcomes (u, th.seq, p.length, p) dod).1 r2 hT
            rw [← Option.some.inj h2, hr2]
          · obtain ⟨c2, d2, o2⟩ := cdo
            rw [hT] at h2
            dsimp only [] at h2
            obtain ⟨hsnd, _, _⟩ := (text_outcomes (u, th.seq, p.length, p) dod).2 c2 d2 o2 hT
            obtain ⟨u2, ss2, sl2, p2⟩ := c2
            rw [← Option.some.inj h2, fin_final_dupacks]
            exact congrArg Snd.dupacks hsnd
        rcases hdisj with hA | hA | ⟨hbump, hdat, hsl, hfinf, hsynf, hackEq2, hwin2⟩
        · exact absurd (hdup2.trans hA) hne1
        · exact absurd (hdup2.trans hA) hne0
        · exact ⟨hdat, hsl, hfinf, hsynf, hackEq2, hwin2, hdup2.trans hbump⟩

/-- C4 witness: the third duplicate ACK against t_c4 (two duplicates
already counted, recover behind SEG.ACK - 1) enters fast retransmit with
recover 1499, ssthresh 350 and cwnd 650. -/
theorem c4_duplicate_ack_witness :
    ∃ t2, input_handle_other_state t_c4 th_c4 [] 5 = some t2 ∧
      t2.snd.dupacks = 3 ∧ t2.snd.recover = 1499 ∧ t2.snd.ssthresh = 350 ∧
      t2.snd.cwnd = 650 := by
  obtain ⟨t2, he, hdp, h3c, _⟩ :=
    (c4_duplicate_ack t_c4 th_c4 [] 5 (Or.inl rfl) (by decide) (by decide) rfl rfl).1
      rfl rfl rfl (by decide) (by decide) (by decide)
  obtain ⟨hcw, hgt, _⟩ := h3c (by decide)
  obtain ⟨hrec, hss, _⟩ := hgt (by decide)
  refine ⟨t2, he, ?_, ?_, ?_, ?_⟩
  · rw [hdp]
    decide
  · rw [hrec]
    decide
  · rw [hss]
    decide
  · rw [hcw, hss]
    decide

lemma sumRem_cons (a : Seg) (l : List Seg) :
    sumRem (a :: l) = a.data_remaining + sumRem l := by
  unfold sumRem
  simp

lemma sumLen_cons (a : Seg) (l : List Seg) :
    sumLen (a :: l) = a.data_len + sumLen l := by
  unfold sumLen
  simp

lemma update_rto_una (t : Tcb) (now tx : Nat) :
    (update_rto t now tx).snd.unacknowledged = t.snd.unacknowledged := by
  unfold update_rto
  dsimp only []
  split_ifs <;> rfl

lemma update_rto_uqs (t : Tcb) (now tx : Nat) :
    (update_rto t now tx).snd.user_queue_space = t.snd.user_queue_space := by
  unfold update_rto
  dsimp only []
  split_ifs <;> rfl

lemma update_rto_data (t : Tcb) (now tx : Nat) :
    (update_rto t now tx).snd.data = t.snd.data := by
  unfold update_rto
  dsimp only []
  split_ifs <;> rfl

lemma update_cwnd_una (t : Tcb) (a : Nat) :
    (update_cwnd t a).snd.unacknowledged = t.snd.unacknowledged := by
  unfold update_cwnd
  dsimp only []
  split_ifs <;> rfl

lemma update_cwnd_uqs (t : Tcb) (a : Nat) :
    (update_cwnd t a).snd.user_queue_space = t.snd.user_queue_space := by
  unfold update_cwnd
  dsimp only []
  split_ifs <;> rfl

lemma update_cwnd_data (t : Tcb) (a : Nat) :
    (update_cwnd t a).snd.data = t.snd.data := by
  unfold update_cwnd
  dsimp only []
  split_ifs <;> rfl

lemma rto_of_update_cwnd (t : Tcb) (a : Nat) :
    rto_of (update_cwnd t a) = rto_of t := by
  unfold update_cwnd rto_of
  dsimp only []
  split_ifs <;> rfl

lemma rto_of_update_rto (t : Tcb) (now tx : Nat) :
    rto_of (update_rto t now tx) = rto_step now (rto_of t) tx := by
  unfold update_rto rto_step rto_of
  dsimp only []
  split_ifs <;> rfl

lemma dist_add_le (u r ack : Nat) (hu : u < W32) (hr : 0 < r) (hrw : r < W16)
    (hD : dist u ack ≤ HALF32) :
    (seqLeb (seqAdd u r) ack = true ↔ r ≤ dist u ack) ∧
    (r ≤ dist u ack → dist (seqAdd u r) ack = dist u ack - r) := by
  rw [seqLeb_iff]
  unfold dist seqAdd W32 HALF32 W16 at *
  constructor
  · constructor <;> intro h2 <;> omega
  · intro h2
    omega

lemma dsa_loop_spec (now seg_ack : Nat) (data : List Seg) :
    ∀ (t : Tcb) (total : Nat),
      t.snd.unacknowledged < W32 →
      dist t.snd.unacknowledged seg_ack ≤ HALF32 →
      (∀ sg ∈ data, 0 < sg.data_remaining ∧ sg.data_remaining < W16) →
      DsaSpec now seg_ack data t total := by
  induction data with
  | nil =>
    intro t total hu hD hpos
    unfold DsaSpec
    refine ⟨0, Nat.le_refl 0, ?_, ?_, ?_, ?_, ?_, ?_, ?_, ?_⟩
    · simp [sumRem]
    · intro sg2 rest2 h
      simp at h
    · simp [dsa_loop]
    · simp [dsa_loop, sumRem]
    · simp [dsa_loop, sumRem]
      exact (Nat.mod_eq_of_lt hu).symm
    · simp [dsa_loop, sumLen]
    · simp [dsa_loop]
    · simp [dsa_loop]
  | cons sg rest ih =>
    intro t total hu hD hpos
    have hsg := hpos sg (List.mem_cons_self sg rest)
    have harith := dist_add_le t.snd.unacknowledged sg.data_remaining seg_ack hu hsg.1 hsg.2 hD
    by_cases hc : seqLeb (seqAdd t.snd.unacknowledged sg.data_remaining) seg_ack = true
    · have hrD : sg.data_remaining ≤ dist t.snd.unacknowledged seg_ack := harith.1.mp hc
      have hD2 : dist (seqAdd t.snd.unacknowledged sg.data_remaining) seg_ack
          = dist t.snd.unacknowledged seg_ack - sg.data_remaining := harith.2 hrD
      have main : ∀ T3 : Tcb,
          dsa_loop now seg_ack (sg :: rest) t total
            = dsa_loop now seg_ack rest T3 (total + sg.data_remaining) →
          T3.snd.unacknowledged = seqAdd t.snd.unacknowledged sg.data_remaining →
          T3.snd.user_queue_space = t.snd.user_queue_space + sg.data_len →
          T3.snd.data = t.snd.data →
          rto_of T3 = (if sg.nr_transmits == 0 then rto_step now (rto_of t) sg.tx_time
            else rto_of t) →
          DsaSpec now seg_ack (sg :: rest) t total := by
        intro T3 hunf h1 h2 h3 h4
        have hu3 : T3.snd.unacknowledged < W32 := by
          rw [h1]
          unfold seqAdd W32
          omega
        have hD3 : dist T3.snd.unacknowledged seg_ack ≤ HALF32 := by
          rw [h1, hD2]
          omega
        have hrest := ih T3 (total + sg.data_remaining) hu3 hD3
          (fun sg2 hm => hpos sg2 (List.mem_cons_of_mem sg hm))
        unfold DsaSpec at hrest
        obtain ⟨k, hk, hS, hstop, e1, e2, e3, e4, e5, e6⟩ := hrest
        rw [h1, hD2] at hS hstop
        unfold DsaSpec
        rw [hunf]
        refine ⟨k + 1, ?_, ?_, ?_, ?_, ?_, ?_, ?_, ?_, ?_⟩
        · simpa using Nat.succ_le_succ hk
        · rw [List.take_succ_cons, sumRem_cons]
          omega
        · intro sg2 rest2 hdrop
          rw [List.drop_succ_cons] at hdrop
          have hx := hstop sg2 rest2 hdrop
          rw [List.take_succ_cons, sumRem_cons]
          omega
        · rw [e1, List.drop_succ_cons]
        · rw [e2, List.take_succ_cons, sumRem_cons]
          omega
        · rw [e3, h1, List.take_succ_cons, sumRem_cons]
          unfold seqAdd W32
          omega
        · rw [e4, h2, List.take_succ_cons, sumLen_cons]
          omega
        · rw [e5, h3]
        · rw [e6, h4, List.take_succ_cons, List.filter_cons]
          by_cases hn : (sg.nr_transmits == 0) = true
          · simp only [hn, if_true, List.foldl_cons]
          · simp only [if_neg hn]
      have hT3 : ∃ T3 : Tcb,
          dsa_loop now seg_ack (sg :: rest) t total
            = dsa_loop now seg_ack rest T3 (total + sg.data_remaining) ∧
          T3.snd.unacknowledged = seqAdd t.snd.unacknowledged sg.data_remaining ∧
          T3.snd.user_queue_space = t.snd.user_queue_space + sg.data_len ∧
          T3.snd.data = t.snd.data ∧
          rto_of T3 = (if sg.nr_transmits == 0 then rto_step now (rto_of t) sg.tx_time
            else rto_of t) :=
        ⟨_, by simp only [dsa_loop]; rw [if_pos hc],
          by dsimp only []
             rw [update_cwnd_una]
             by_cases hn : (sg.nr_transmits == 0) = true
             · rw [if_pos hn, update_rto_una]
             · rw [if_neg hn],
          by dsimp only []
             rw [update_cwnd_uqs]
             by_cases hn : (sg.nr_transmits == 0) = true
             · rw [if_pos hn, update_rto_uqs]
             · rw [if_neg hn],
          by dsimp only []
             rw [update_cwnd_data]
             by_cases hn : (sg.nr_transmits == 0) = true
             · rw [if_pos hn, update_rto_data]
             · rw [if_neg hn],
          by by_cases hn : (sg.nr_transmits == 0) = true
             · rw [if_pos hn]
               rw [show ∀ x : Tcb, rto_of { x with snd := { x.snd with
                 user_queue_space := x.snd.user_queue_space + sg.data_len } } = rto_of x
                 from fun x => rfl]
               rw [rto_of_update_cwnd, rto_of_update_rto, if_pos hn]
               rfl
             · rw [if_neg hn]
               rw [show ∀ x : Tcb, rto_of { x with snd := { x.snd with
                 user_queue_space := x.snd.user_queue_space + sg.data_len } } = rto_of x
                 from fun x => rfl]
               rw [rto_of_update_cwnd, if_neg hn]
               rfl⟩
      obtain ⟨T3, hunf, hh1, hh2, hh3, hh4⟩ := hT3
      exact main T3 hunf hh1 hh2 hh3 hh4
    · have hl : dsa_loop now seg_ack (sg :: rest) t total = (t, sg :: rest, total) := by
        simp only [dsa_loop]
        rw [if_neg hc]
      have hnr : ¬ sg.data_remaining ≤ dist t.snd.unacknowledged seg_ack :=
        fun hle => hc (harith.1.mpr hle)
      unfold DsaSpec
      rw [hl]
      refine ⟨0, Nat.zero_le _, ?_, ?_, ?_, ?_, ?_, ?_, ?_, ?_⟩
      · simp [sumRem]
      · intro sg2 rest2 hdrop
        rw [List.drop_zero] at hdrop
        injection hdrop with hh1 hh2
        subst hh1
        simp [sumRem]
        omega
      · simp
      · simp [sumRem]
      · simp [sumRem]
        exact (Nat.mod_eq_of_lt hu).symm
      · simp [sumLen]
      · rfl
      · simp

/-- C3: under SND.UNA < SEG.ACK <= SND.NXT (wrap-safe), with SND.data
spanning exactly UNA..NXT in positive sub-64K chunks, data_segment_acked
pops every head segment fully covered by SEG.ACK (credit data_len to
user_queue_space, RTO sample only for nr_transmits = 0), then reduces only
the data_remaining of the new head when SND.UNA is still short of SEG.ACK,
sets SND.UNA = SEG.ACK, and returns the total newly acknowledged byte
count SEG.ACK - old SND.UNA. -/
theorem c3_data_segment_acked (t : Tcb) (seg_ack now : Nat)
    (hu : t.snd.unacknowledged < W32) (ha : seg_ack < W32)
    (h1 : seqLtb t.snd.unacknowledged seg_ack = true)
    (h2 : seqLeb seg_ack t.snd.next = true)
    (hspan : sumRem t.snd.data = dist t.snd.unacknowledged t.snd.next)
    (hpos : ∀ sg ∈ t.snd.data, 0 < sg.data_remaining ∧ sg.data_remaining < W16) :
    ∃ k t2,
      data_segment_acked t seg_ack now
        = some (t2, dist t.snd.unacknowledged seg_ack) ∧
      k ≤ t.snd.data.length ∧
      sumRem (t.snd.data.take k) ≤ dist t.snd.unacknowledged seg_ack ∧
      (∀ sg2 rest2, t.snd.data.drop k = sg2 :: rest2 →
         dist t.snd.unacknowledged seg_ack
           < sumRem (t.snd.data.take k) + sg2.data_remaining) ∧
      t2.snd.unacknowledged = seg_ack ∧
      t2.snd.user_queue_space = t.snd.user_queue_space + sumLen (t.snd.data.take k) ∧
      rto_of t2 = ((t.snd.data.take k).filter (fun sg => sg.nr_transmits == 0)).foldl
        (fun r sg => rto_step now r sg.tx_time) (rto_of t) ∧
      (sumRem (t.snd.data.take k) = dist t.snd.unacknowledged seg_ack →
         t2.snd.data = t.snd.data.drop k) ∧
      (sumRem (t.snd.data.take k) < dist t.snd.unacknowledged seg_ack →
         ∃ sg2 rest2, t.snd.data.drop k = sg2 :: rest2 ∧
           t2.snd.data = { sg2 with data_remaining := sg2.data_remaining
             - (dist t.snd.unacknowledged seg_ack - sumRem (t.snd.data.take k)) } :: rest2) := by
  have hD0 := (seqLtb_iff t.snd.unacknowledged seg_ack).mp h1
  have hDspan : dist t.snd.unacknowledged seg_ack ≤ sumRem t.snd.data := by
    rw [hspan]
    have h2d := (seqLeb_iff seg_ack t.snd.next).mp h2
    have hD0b := hD0
    unfold dist at h2d hD0b ⊢
    unfold W32 at h2d hD0b hu ha ⊢
    unfold HALF32 at h2d hD0b
    omega
  have hspec := dsa_loop_spec now seg_ack t.snd.data t 0 hu hD0.2 hpos
  unfold DsaSpec at hspec
  obtain ⟨k, hk, hS, hstop, e1, e2, e3, e4, e5, e6⟩ := hspec
  rcases hdd : dsa_loop now seg_ack t.snd.data t 0 with ⟨ta, rem, tot⟩
  rw [hdd] at e1 e2 e3 e4 e5 e6
  dsimp only [] at e1 e2 e3 e4 e5 e6
  simp only [Nat.zero_add] at e2
  have hdist2 : dist ((t.snd.unacknowledged + sumRem (t.snd.data.take k)) % W32) seg_ack
      = dist t.snd.unacknowledged seg_ack - sumRem (t.snd.data.take k) := by
    have hSb := hS
    unfold dist at hSb ⊢
    unfold W32 at hSb hu ha ⊢
    omega
  unfold data_segment_acked
  rw [hdd]
  dsimp only []
  by_cases hfull : sumRem (t.snd.data.take k) = dist t.snd.unacknowledged seg_ack
  · have hua : (t.snd.unacknowledged + sumRem (t.snd.data.take k)) % W32 = seg_ack := by
      rw [hfull]
      unfold dist
      unfold W32 at hu ha ⊢
      omega
    have hcf : seqLtb ta.snd.unacknowledged seg_ack = false := by
      rw [e3, hua]
      exact seqLtb_irrefl seg_ack
    rw [hcf]
    simp only [Bool.false_eq_true, if_false]
    exact ⟨k, { ta with snd := { ta.snd with data := rem } },
      by rw [e2, hfull], hk, hS, hstop,
      by rw [show ({ ta with snd := { ta.snd with data := rem } } : Tcb).snd.unacknowledged
           = ta.snd.unacknowledged from rfl, e3, hua],
      e4, e6, fun _ => e1, fun hlt => absurd hfull (Nat.ne_of_lt hlt)⟩
  · have hlt : sumRem (t.snd.data.take k) < dist t.snd.unacknowledged seg_ack :=
      Nat.lt_of_le_of_ne hS hfull
    have hcond : seqLtb ((t.snd.unacknowledged + sumRem (t.snd.data.take k)) % W32) seg_ack
        = true := by
      rw [seqLtb_iff, hdist2]
      exact ⟨by omega, by omega⟩
    have hct : seqLtb ta.snd.unacknowledged seg_ack = true := by
      rw [e3]
      exact hcond
    rw [hct]
    simp only [if_true]
    have hne : t.snd.data.drop k ≠ [] := by
      intro hemp
      have htk : t.snd.data.take k = t.snd.data := by
        conv_rhs => rw [← List.take_append_drop k t.snd.data]
        rw [hemp, List.append_nil]
      rw [htk] at hlt
      omega
    rw [e1]
    rcases hrem : t.snd.data.drop k with _ | ⟨sg2, rest2⟩
    · exact absurd hrem hne
    · dsimp only []
      have hsg2 : sg2 ∈ t.snd.data := by
        refine List.drop_subset k t.snd.data ?_
        rw [hrem]
        exact List.mem_cons_self sg2 rest2
      have hpos2 := hpos sg2 hsg2
      have hhead := hstop sg2 rest2 hrem
      have hdist3 : dist ta.snd.unacknowledged seg_ack
          = dist t.snd.unacknowledged seg_ack - sumRem (t.snd.data.take k) := by
        rw [e3]
        exact hdist2
      rw [u32_seqSub, hdist3]
      have hremeq : (sg2.data_remaining + (W16
          - (dist t.snd.unacknowledged seg_ack - sumRem (t.snd.data.take k)) % W16)) % W16
          = sg2.data_remaining
            - (dist t.snd.unacknowledged seg_ack - sumRem (t.snd.data.take k)) := by
        unfold W16 at hpos2 ⊢
        omega
      rw [hremeq]
      exact ⟨k, update_cwnd { ta with snd := { ta.snd with
          data := { sg2 with data_remaining := sg2.data_remaining
            - (dist t.snd.unacknowledged seg_ack - sumRem (t.snd.data.take k)) } :: rest2,
          unacknowledged := seg_ack } }
          (dist t.snd.unacknowledged seg_ack - sumRem (t.snd.data.take k)),
        by rw [e2]
           rw [show sumRem (t.snd.data.take k)
             + (dist t.snd.unacknowledged seg_ack - sumRem (t.snd.data.take k))
             = dist t.snd.unacknowledged seg_ack by omega],
        hk, hS, hstop,
        by rw [update_cwnd_una],
        by rw [update_cwnd_uqs]
           exact e4,
        by rw [rto_of_update_cwnd]
           exact e6,
        fun heq2 => absurd heq2 (Nat.ne_of_lt hlt),
        fun _ => ⟨sg2, rest2, hrem, by rw [update_cwnd_data]⟩⟩

/-- C3 witness: t_c3 (UNA 1000, segments of 500 and 300 bytes spanning to
NXT 1800) ACKed at 1600 pops the 500-byte segment, reduces the second to
200 remaining bytes, credits 507 and returns 600 acked bytes. -/
theorem c3_data_segment_acked_witness :
    ∃ t2, data_segment_acked t_c3 1600 5 = some (t2, 600) ∧
      t2.snd.unacknowledged = 1600 ∧ t2.snd.user_queue_space = 507 ∧
      t2.snd.data.map Seg.data_remaining = [200] := by
  obtain ⟨k, t2, heq, hk, hS, hstop, huna, huqs, hrto, hfull, hpart⟩ :=
    c3_data_segment_acked t_c3 1600 5 (by decide) (by decide) (by decide) (by decide)
      (by decide) (by decide)
  have hk2 : k ≤ 2 := hk
  have hk1 : k = 1 := by
    interval_cases k
    · exact absurd (hstop seg_a [seg_b] rfl) (by decide)
    · rfl
    · exact absurd hS (by decide)
  subst hk1
  obtain ⟨sg2, rest2, hdrop, hdata⟩ := hpart (by decide)
  have hsg2 : sg2 = seg_b ∧ rest2 = [] := by
    rw [show t_c3.snd.data.drop 1 = [seg_b] from rfl] at hdrop
    injection hdrop with hh1 hh2
    exact ⟨hh1.symm, hh2.symm⟩
  obtain ⟨hb, hr⟩ := hsg2
  subst hb
  subst hr
  refine ⟨t2, ?_, ?_, ?_, ?_⟩
  · rw [heq]
    rw [show dist t_c3.snd.unacknowledged 1600 = 600 from by decide]
  · exact huna
  · rw [huqs]
    decide
  · rw [hdata]
    decide

end TcpModel
